import Mathlib

/-!
Shallow embedding of the RestaurantMaster server (Express routes in
`server/routes.ts`, in-memory persistence in `server/storage.ts`
(`MemStorage`), schema in `shared/schema.ts`), together with theorems
settling the frozen claims about its authorization, provisioning,
cascade-delete and public-menu behaviour.

Modelling conventions:
- `Map<number, E>` becomes a `List E` in insertion order (`Map.set` on a
  fresh key appends; `Map.set` on an existing key keeps its position, so
  updates are in-place `List.map`; `Map.delete` filters and reports
  whether the key was present; `Array.from(map.values())` is the list
  itself).
- `createdAt`/`updatedAt` timestamps are server-assigned `Date` objects
  that no claim mentions; they are omitted from the embedded records.
- Route params arrive already parsed as `Nat` ids, so the
  `isNaN(parseInt(...))` guards for malformed path strings are dropped.
- JavaScript truthiness in `x || d` and `x ?? d` is modelled explicitly:
  `||` replaces `null`/`undefined`/`""`/`0`/`false` by the default,
  `??` replaces only `null`/`undefined`.
- Request bodies are records whose fields are `Option`-wrapped (absent
  vs present); `zod` schema `.parse` succeeds exactly when the required
  (notNull, no default) columns are present, which is what
  `createInsertSchema(...).omit(...)` checks on already-type-correct
  JSON input.  `.partial().parse` always succeeds on such input.
- Handlers return `Except ApiError α`; mutating handlers return
  `Except ApiError (α × Store)`.  Every early error `return` in the
  source occurs before any storage write, so an `error` result carries
  no store: the store is unchanged.
-/

namespace RestaurantMaster

/-- JavaScript `x || null` on an optional string: `null`/`undefined` and
the falsy `""` collapse to `null`. -/
def jsOrNullStr : Option String → Option String
  | some s => if s = "" then none else some s
  | none => none

/-- JavaScript `x || d` on an optional string with a string default. -/
def jsOrStr (d : String) : Option String → String
  | some s => if s = "" then d else s
  | none => none |>.getD d

/-- JavaScript `x || null` on an optional integer: `null`/`undefined` and
the falsy `0` collapse to `null`. -/
def jsOrNullInt : Option Int → Option Int
  | some n => if n = 0 then none else some n
  | none => none

/-- JavaScript `x || null` on an optional id: `null`/`undefined` and the
falsy `0` collapse to `null`. -/
def jsOrNullNat : Option Nat → Option Nat
  | some n => if n = 0 then none else some n
  | none => none

/-- JavaScript `x || null` on an optional boolean: `null`/`undefined` and
the falsy `false` collapse to `null`. -/
def jsOrNullBool : Option Bool → Option Bool
  | some b => if b then some true else none
  | none => none

/-- JavaScript `x || 0` on an optional integer. -/
def jsOrZero : Option Int → Int
  | some n => n
  | none => 0

/-- JavaScript truthiness of an optional id (`if (categoryId)`):
`undefined`/`null` and `0` are falsy. -/
def truthyNat : Option Nat → Bool
  | some n => n ≠ 0
  | none => false

/-- JSON scalar values, for response object literals whose exact key set
matters (the public-menu `restaurant` object). -/
inductive JVal where
  | jnull
  | jstr (s : String)
  | jnum (n : Int)
  | jbool (b : Bool)
deriving Repr, DecidableEq

/-- Encode an optional string column as JSON (`null` or string). -/
def jOptStr : Option String → JVal
  | some s => .jstr s
  | none => .jnull

/-- Encode an optional boolean column as JSON. -/
def jOptBool : Option Bool → JVal
  | some b => .jbool b
  | none => .jnull

/-! Entity records, following `shared/schema.ts` select types
(`$inferSelect`), minus timestamps.  Columns without `.notNull()` are
`Option`s. -/

/-- Row of the `users` table. -/
structure User where
  id : Nat
  username : String
  password : String
  name : String
  email : String
  role : String
deriving Repr, DecidableEq

/-- Row of the `restaurants` table. -/
structure Restaurant where
  id : Nat
  name : String
  description : Option String
  logo : Option String
  phone : Option String
  email : Option String
  address : Option String
  adminId : Nat
  status : String
  primaryColor : Option String
  secondaryColor : Option String
  rtl : Option Bool
deriving Repr, DecidableEq

/-- Row of the `categories` table. -/
structure Category where
  id : Nat
  name : String
  description : Option String
  icon : Option String
  displayOrder : Option Int
  restaurantId : Nat
deriving Repr, DecidableEq

/-- Row of the `menu_items` table. -/
structure MenuItem where
  id : Nat
  name : String
  description : Option String
  price : Int
  discountPrice : Option Int
  image : Option String
  featured : Option Bool
  categoryId : Nat
  restaurantId : Nat
deriving Repr, DecidableEq

/-- Row of the `social_media_links` table. -/
structure SocialMediaLink where
  id : Nat
  platform : String
  url : String
  restaurantId : Nat
deriving Repr, DecidableEq

/-- Row of the `qr_codes` table. -/
structure QRCode where
  id : Nat
  label : String
  restaurantId : Nat
deriving Repr, DecidableEq

/-- Row of the `activity_logs` table; the free-form `details` JSON is a
list of string pairs (every `details` literal in the routes is a flat
one-field string object). -/
structure ActivityLog where
  id : Nat
  userId : Option Nat
  action : String
  details : List (String × String)
  entityType : Option String
  entityId : Option Nat
  restaurantId : Option Nat
deriving Repr, DecidableEq

/-! Insert payloads (`createInsertSchema(table).omit({id, createdAt,
updatedAt})` output types): required = notNull column without default;
columns with a default or nullable columns are `Option`s. -/

/-- Parsed `insertUserSchema` payload. -/
structure InsertUser where
  username : String
  password : String
  name : String
  email : String
  role : Option String
deriving Repr, DecidableEq

/-- Parsed `insertRestaurantSchema` payload. -/
structure InsertRestaurant where
  name : String
  description : Option String
  logo : Option String
  phone : Option String
  email : Option String
  address : Option String
  adminId : Nat
  status : Option String
  primaryColor : Option String
  secondaryColor : Option String
  rtl : Option Bool
deriving Repr, DecidableEq

/-- Parsed `insertCategorySchema` payload. -/
structure InsertCategory where
  name : String
  description : Option String
  icon : Option String
  displayOrder : Option Int
  restaurantId : Nat
deriving Repr, DecidableEq

/-- Parsed `insertMenuItemSchema` payload. -/
structure InsertMenuItem where
  name : String
  description : Option String
  price : Int
  discountPrice : Option Int
  image : Option String
  featured : Option Bool
  categoryId : Nat
  restaurantId : Nat
deriving Repr, DecidableEq

/-- Parsed `insertSocialMediaLinkSchema` payload. -/
structure InsertSocialMediaLink where
  platform : String
  url : String
  restaurantId : Nat
deriving Repr, DecidableEq

/-- Parsed `insertQRCodeSchema` payload. -/
structure InsertQRCode where
  label : String
  restaurantId : Nat
deriving Repr, DecidableEq

/-- Parsed `insertActivityLogSchema` payload. -/
structure InsertActivityLog where
  userId : Option Nat
  action : String
  details : Option (List (String × String))
  entityType : Option String
  entityId : Option Nat
  restaurantId : Option Nat
deriving Repr, DecidableEq

/-- The `MemStorage` state: one `Map` (insertion-ordered list) and one id
counter per entity. -/
structure Store where
  users : List User
  restaurants : List Restaurant
  categories : List Category
  menuItems : List MenuItem
  socialMediaLinks : List SocialMediaLink
  qrCodes : List QRCode
  activityLogs : List ActivityLog
  userIdCounter : Nat
  restaurantIdCounter : Nat
  categoryIdCounter : Nat
  menuItemIdCounter : Nat
  socialMediaLinkIdCounter : Nat
  qrCodeIdCounter : Nat
  activityLogIdCounter : Nat
deriving Repr, DecidableEq

namespace Store

/-- `MemStorage.getUser`. -/
def getUser (s : Store) (id : Nat) : Option User :=
  s.users.find? (fun u => u.id == id)

/-- `MemStorage.getUserByUsername`. -/
def getUserByUsername (s : Store) (username : String) : Option User :=
  s.users.find? (fun u => u.username == username)

/-- `MemStorage.createUser`: allocates the next id, defaults a falsy role
to `"restaurant_admin"`, appends. -/
def createUser (s : Store) (d : InsertUser) : User × Store :=
  let user : User :=
    { id := s.userIdCounter
      username := d.username
      password := d.password
      name := d.name
      email := d.email
      role := jsOrStr "restaurant_admin" d.role }
  (user, { s with users := s.users ++ [user], userIdCounter := s.userIdCounter + 1 })

/-- `MemStorage.deleteUser` (`Map.delete` result is whether the key was
present). -/
def deleteUser (s : Store) (id : Nat) : Bool × Store :=
  (s.users.any (fun u => u.id == id),
   { s with users := s.users.filter (fun u => u.id != id) })

/-- `MemStorage.getAllUsers`. -/
def getAllUsers (s : Store) : List User :=
  s.users

/-- `MemStorage.getRestaurant`. -/
def getRestaurant (s : Store) (id : Nat) : Option Restaurant :=
  s.restaurants.find? (fun r => r.id == id)

/-- `MemStorage.createRestaurant`: spreads the payload, normalizes the
optional columns with `|| null` / `|| "setup"` / `?? true`, appends. -/
def createRestaurant (s : Store) (d : InsertRestaurant) : Restaurant × Store :=
  let r : Restaurant :=
    { id := s.restaurantIdCounter
      name := d.name
      description := jsOrNullStr d.description
      logo := jsOrNullStr d.logo
      phone := jsOrNullStr d.phone
      email := jsOrNullStr d.email
      address := jsOrNullStr d.address
      adminId := d.adminId
      status := jsOrStr "setup" d.status
      primaryColor := jsOrNullStr d.primaryColor
      secondaryColor := jsOrNullStr d.secondaryColor
      rtl := some (d.rtl.getD true) }
  (r, { s with restaurants := s.restaurants ++ [r],
               restaurantIdCounter := s.restaurantIdCounter + 1 })

/-- `MemStorage.deleteRestaurant`: removes the restaurant row and nothing
else. -/
def deleteRestaurant (s : Store) (id : Nat) : Bool × Store :=
  (s.restaurants.any (fun r => r.id == id),
   { s with restaurants := s.restaurants.filter (fun r => r.id != id) })

/-- `MemStorage.getAllRestaurants`. -/
def getAllRestaurants (s : Store) : List Restaurant :=
  s.restaurants

/-- `MemStorage.getRestaurantsByAdminId`. -/
def getRestaurantsByAdminId (s : Store) (adminId : Nat) : List Restaurant :=
  s.restaurants.filter (fun r => r.adminId == adminId)

/-- `MemStorage.getCategory`. -/
def getCategory (s : Store) (id : Nat) : Option Category :=
  s.categories.find? (fun c => c.id == id)

/-- `MemStorage.createCategory`. -/
def createCategory (s : Store) (d : InsertCategory) : Category × Store :=
  let c : Category :=
    { id := s.categoryIdCounter
      name := d.name
      description := jsOrNullStr d.description
      icon := jsOrNullStr d.icon
      displayOrder := some (jsOrZero d.displayOrder)
      restaurantId := d.restaurantId }
  (c, { s with categories := s.categories ++ [c],
               categoryIdCounter := s.categoryIdCounter + 1 })

/-- `MemStorage.deleteCategory`: removes the category row and nothing
else (menu items keep their `categoryId`). -/
def deleteCategory (s : Store) (id : Nat) : Bool × Store :=
  (s.categories.any (fun c => c.id == id),
   { s with categories := s.categories.filter (fun c => c.id != id) })

/-- `MemStorage.getCategoriesByRestaurantId`: filter then stable sort by
`(displayOrder || 0)` ascending.  JavaScript `Array.prototype.sort` is a
stable sort, and a stable sort under a total preorder on keys has a
unique result, so the structurally recursive stable `insertionSort`
computes exactly the array the source produces. -/
def getCategoriesByRestaurantId (s : Store) (restaurantId : Nat) : List Category :=
  (s.categories.filter (fun c => c.restaurantId == restaurantId)).insertionSort
    (fun a b => a.displayOrder.getD 0 ≤ b.displayOrder.getD 0)

/-- `MemStorage.getMenuItem`. -/
def getMenuItem (s : Store) (id : Nat) : Option MenuItem :=
  s.menuItems.find? (fun m => m.id == id)

/-- `MemStorage.createMenuItem`. -/
def createMenuItem (s : Store) (d : InsertMenuItem) : MenuItem × Store :=
  let m : MenuItem :=
    { id := s.menuItemIdCounter
      name := d.name
      description := jsOrNullStr d.description
      price := d.price
      discountPrice := jsOrNullInt d.discountPrice
      image := jsOrNullStr d.image
      featured := jsOrNullBool d.featured
      categoryId := d.categoryId
      restaurantId := d.restaurantId }
  (m, { s with menuItems := s.menuItems ++ [m],
               menuItemIdCounter := s.menuItemIdCounter + 1 })

/-- `MemStorage.deleteMenuItem`. -/
def deleteMenuItem (s : Store) (id : Nat) : Bool × Store :=
  (s.menuItems.any (fun m => m.id == id),
   { s with menuItems := s.menuItems.filter (fun m => m.id != id) })

/-- `MemStorage.getMenuItemsByRestaurantId`. -/
def getMenuItemsByRestaurantId (s : Store) (restaurantId : Nat) : List MenuItem :=
  s.menuItems.filter (fun m => m.restaurantId == restaurantId)

/-- `MemStorage.getMenuItemsByCategoryId`. -/
def getMenuItemsByCategoryId (s : Store) (categoryId : Nat) : List MenuItem :=
  s.menuItems.filter (fun m => m.categoryId == categoryId)

/-- `MemStorage.getSocialMediaLink`. -/
def getSocialMediaLink (s : Store) (id : Nat) : Option SocialMediaLink :=
  s.socialMediaLinks.find? (fun l => l.id == id)

/-- `MemStorage.createSocialMediaLink` (no field normalization). -/
def createSocialMediaLink (s : Store) (d : InsertSocialMediaLink) :
    SocialMediaLink × Store :=
  let l : SocialMediaLink :=
    { id := s.socialMediaLinkIdCounter
      platform := d.platform
      url := d.url
      restaurantId := d.restaurantId }
  (l, { s with socialMediaLinks := s.socialMediaLinks ++ [l],
               socialMediaLinkIdCounter := s.socialMediaLinkIdCounter + 1 })

/-- `MemStorage.deleteSocialMediaLink`. -/
def deleteSocialMediaLink (s : Store) (id : Nat) : Bool × Store :=
  (s.socialMediaLinks.any (fun l => l.id == id),
   { s with socialMediaLinks := s.socialMediaLinks.filter (fun l => l.id != id) })

/-- `MemStorage.getSocialMediaLinksByRestaurantId`. -/
def getSocialMediaLinksByRestaurantId (s : Store) (restaurantId : Nat) :
    List SocialMediaLink :=
  s.socialMediaLinks.filter (fun l => l.restaurantId == restaurantId)

/-- `MemStorage.getQRCode`. -/
def getQRCode (s : Store) (id : Nat) : Option QRCode :=
  s.qrCodes.find? (fun q => q.id == id)

/-- `MemStorage.createQRCode`. -/
def createQRCode (s : Store) (d : InsertQRCode) : QRCode × Store :=
  let q : QRCode :=
    { id := s.qrCodeIdCounter
      label := d.label
      restaurantId := d.restaurantId }
  (q, { s with qrCodes := s.qrCodes ++ [q],
               qrCodeIdCounter := s.qrCodeIdCounter + 1 })

/-- `MemStorage.deleteQRCode`. -/
def deleteQRCode (s : Store) (id : Nat) : Bool × Store :=
  (s.qrCodes.any (fun q => q.id == id),
   { s with qrCodes := s.qrCodes.filter (fun q => q.id != id) })

/-- `MemStorage.getQRCodesByRestaurantId`. -/
def getQRCodesByRestaurantId (s : Store) (restaurantId : Nat) : List QRCode :=
  s.qrCodes.filter (fun q => q.restaurantId == restaurantId)

/-- `MemStorage.createActivityLog`, with its `|| null` / `|| {}`
normalizations. -/
def createActivityLog (s : Store) (d : InsertActivityLog) : ActivityLog × Store :=
  let log : ActivityLog :=
    { id := s.activityLogIdCounter
      userId := jsOrNullNat d.userId
      action := d.action
      details := d.details.getD []
      entityType := jsOrNullStr d.entityType
      entityId := jsOrNullNat d.entityId
      restaurantId := jsOrNullNat d.restaurantId }
  (log, { s with activityLogs := s.activityLogs ++ [log],
                 activityLogIdCounter := s.activityLogIdCounter + 1 })

/-- `MemStorage.getActivityLogsByRestaurantId` (the `createdAt`-descending
sort is dropped with the timestamps; no claim concerns log order). -/
def getActivityLogsByRestaurantId (s : Store) (restaurantId : Nat) :
    List ActivityLog :=
  s.activityLogs.filter (fun l => l.restaurantId == some restaurantId)

end Store

/-! Partial-update payloads (`insert*Schema.partial()` output): every
field optional; a nullable column may additionally be set to `null`
explicitly, hence the nested `Option`. -/

/-- `insertRestaurantSchema.partial()` payload. -/
structure RestaurantPatch where
  name : Option String := none
  description : Option (Option String) := none
  logo : Option (Option String) := none
  phone : Option (Option String) := none
  email : Option (Option String) := none
  address : Option (Option String) := none
  adminId : Option Nat := none
  status : Option String := none
  primaryColor : Option (Option String) := none
  secondaryColor : Option (Option String) := none
  rtl : Option (Option Bool) := none
deriving Repr, DecidableEq

/-- `insertCategorySchema.partial()` payload. -/
structure CategoryPatch where
  name : Option String := none
  description : Option (Option String) := none
  icon : Option (Option String) := none
  displayOrder : Option (Option Int) := none
  restaurantId : Option Nat := none
deriving Repr, DecidableEq

/-- `insertMenuItemSchema.partial()` payload. -/
structure MenuItemPatch where
  name : Option String := none
  description : Option (Option String) := none
  price : Option Int := none
  discountPrice : Option (Option Int) := none
  image : Option (Option String) := none
  featured : Option (Option Bool) := none
  categoryId : Option Nat := none
  restaurantId : Option Nat := none
deriving Repr, DecidableEq

/-- `insertSocialMediaLinkSchema.partial()` payload. -/
structure SocialMediaLinkPatch where
  platform : Option String := none
  url : Option String := none
  restaurantId : Option Nat := none
deriving Repr, DecidableEq

namespace Store

/-- The `{ ...existingRestaurant, ...restaurantData }` merge of
`MemStorage.updateRestaurant`. -/
def mergeRestaurant (r : Restaurant) (p : RestaurantPatch) : Restaurant :=
  { id := r.id
    name := p.name.getD r.name
    description := p.description.getD r.description
    logo := p.logo.getD r.logo
    phone := p.phone.getD r.phone
    email := p.email.getD r.email
    address := p.address.getD r.address
    adminId := p.adminId.getD r.adminId
    status := p.status.getD r.status
    primaryColor := p.primaryColor.getD r.primaryColor
    secondaryColor := p.secondaryColor.getD r.secondaryColor
    rtl := p.rtl.getD r.rtl }

/-- `MemStorage.updateRestaurant`: merge and replace in place
(`Map.set` on an existing key keeps its position). -/
def updateRestaurant (s : Store) (id : Nat) (p : RestaurantPatch) :
    Option Restaurant × Store :=
  match s.getRestaurant id with
  | none => (none, s)
  | some r =>
    let r' := mergeRestaurant r p
    (some r',
     { s with restaurants := s.restaurants.map (fun x => if x.id == id then r' else x) })

/-- The `{ ...existingCategory, ...categoryData }` merge of
`MemStorage.updateCategory`. -/
def mergeCategory (c : Category) (p : CategoryPatch) : Category :=
  { id := c.id
    name := p.name.getD c.name
    description := p.description.getD c.description
    icon := p.icon.getD c.icon
    displayOrder := p.displayOrder.getD c.displayOrder
    restaurantId := p.restaurantId.getD c.restaurantId }

/-- `MemStorage.updateCategory`. -/
def updateCategory (s : Store) (id : Nat) (p : CategoryPatch) :
    Option Category × Store :=
  match s.getCategory id with
  | none => (none, s)
  | some c =>
    let c' := mergeCategory c p
    (some c',
     { s with categories := s.categories.map (fun x => if x.id == id then c' else x) })

/-- The `{ ...existingMenuItem, ...menuItemData }` merge of
`MemStorage.updateMenuItem`. -/
def mergeMenuItem (m : MenuItem) (p : MenuItemPatch) : MenuItem :=
  { id := m.id
    name := p.name.getD m.name
    description := p.description.getD m.description
    price := p.price.getD m.price
    discountPrice := p.discountPrice.getD m.discountPrice
    image := p.image.getD m.image
    featured := p.featured.getD m.featured
    categoryId := p.categoryId.getD m.categoryId
    restaurantId := p.restaurantId.getD m.restaurantId }

/-- `MemStorage.updateMenuItem`. -/
def updateMenuItem (s : Store) (id : Nat) (p : MenuItemPatch) :
    Option MenuItem × Store :=
  match s.getMenuItem id with
  | none => (none, s)
  | some m =>
    let m' := mergeMenuItem m p
    (some m',
     { s with menuItems := s.menuItems.map (fun x => if x.id == id then m' else x) })

/-- The `{ ...existingLink, ...linkData }` merge of
`MemStorage.updateSocialMediaLink`. -/
def mergeSocialMediaLink (l : SocialMediaLink) (p : SocialMediaLinkPatch) :
    SocialMediaLink :=
  { id := l.id
    platform := p.platform.getD l.platform
    url := p.url.getD l.url
    restaurantId := p.restaurantId.getD l.restaurantId }

/-- `MemStorage.updateSocialMediaLink`. -/
def updateSocialMediaLink (s : Store) (id : Nat) (p : SocialMediaLinkPatch) :
    Option SocialMediaLink × Store :=
  match s.getSocialMediaLink id with
  | none => (none, s)
  | some l =>
    let l' := mergeSocialMediaLink l p
    (some l',
     { s with socialMediaLinks :=
         s.socialMediaLinks.map (fun x => if x.id == id then l' else x) })

end Store

/-! Request-level model: principals, errors, request bodies, handlers
(`server/routes.ts`). -/

/-- The `req.user` object set by `authMiddleware` (`{ id, role }` of the
session user); every handler below runs behind `authMiddleware`, except
the public-menu handler which takes no principal at all. -/
structure Principal where
  id : Nat
  role : String
deriving Repr, DecidableEq

/-- Error responses, tagged by HTTP status class. -/
inductive ApiError where
  | badRequest (msg : String)
  | unauthorized (msg : String)
  | forbidden (msg : String)
  | notFound (msg : String)
  | internal
deriving Repr, DecidableEq

/-- The 403 message of the ownership checks. -/
def forbiddenRestaurantMsg : String :=
  "Forbidden: You don\x27t have access to this restaurant"

/-- The 403 message of `superAdminMiddleware`. -/
def superAdminRequiredMsg : String :=
  "Forbidden: Super admin access required"

/-- `validateOwnership` middleware.  It destructures
`req.params.restaurantId`, and `if (!restaurantId) return next()` passes
the request through when that param is absent — which happens on
`PUT /api/restaurants/:id`, whose path param is named `id`, so the
middleware is a no-op there even though the route mounts it.  When the
param is present: super admins pass without any lookup; otherwise the
restaurant must exist (else 404) and belong to the caller (else 403). -/
def validateOwnership (s : Store) (p : Principal) (restaurantId : Option Nat) :
    Option ApiError :=
  match restaurantId with
  | none => none
  | some rid =>
    if p.role = "super_admin" then none
    else
      match s.getRestaurant rid with
      | none => some (.notFound "Restaurant not found")
      | some r =>
        if r.adminId ≠ p.id then some (.forbidden forbiddenRestaurantMsg)
        else none

/-! Raw create bodies: like the insert payloads but with the required
fields still optional, so that `zod` validation is observable.  The
parse functions are `insert*Schema.parse`. -/

/-- Raw body of `POST /api/restaurants`. -/
structure RestaurantBody where
  name : Option String := none
  description : Option String := none
  logo : Option String := none
  phone : Option String := none
  email : Option String := none
  address : Option String := none
  adminId : Option Nat := none
  status : Option String := none
  primaryColor : Option String := none
  secondaryColor : Option String := none
  rtl : Option Bool := none
deriving Repr, DecidableEq

/-- `insertRestaurantSchema.parse`: `name` and `adminId` are the notNull,
default-free columns. -/
def parseInsertRestaurant (b : RestaurantBody) : Except ApiError InsertRestaurant :=
  match b.name, b.adminId with
  | some name, some adminId =>
    .ok { name, description := b.description, logo := b.logo, phone := b.phone
          email := b.email, address := b.address, adminId, status := b.status
          primaryColor := b.primaryColor, secondaryColor := b.secondaryColor
          rtl := b.rtl }
  | _, _ => .error (.badRequest "Validation error")

/-- Raw body of `POST /api/restaurants/:restaurantId/categories`
(`restaurantId` in the body is overwritten by the route param). -/
structure CategoryBody where
  name : Option String := none
  description : Option String := none
  icon : Option String := none
  displayOrder : Option Int := none
  restaurantId : Option Nat := none
deriving Repr, DecidableEq

/-- `insertCategorySchema.parse`: `name` and `restaurantId` required. -/
def parseInsertCategory (b : CategoryBody) : Except ApiError InsertCategory :=
  match b.name, b.restaurantId with
  | some name, some restaurantId =>
    .ok { name, description := b.description, icon := b.icon
          displayOrder := b.displayOrder, restaurantId }
  | _, _ => .error (.badRequest "Validation error")

/-- Raw body of `POST /api/restaurants/:restaurantId/menu-items`. -/
structure MenuItemBody where
  name : Option String := none
  description : Option String := none
  price : Option Int := none
  discountPrice : Option Int := none
  image : Option String := none
  featured : Option Bool := none
  categoryId : Option Nat := none
  restaurantId : Option Nat := none
deriving Repr, DecidableEq

/-- `insertMenuItemSchema.parse`: `name`, `price`, `categoryId`,
`restaurantId` required. -/
def parseInsertMenuItem (b : MenuItemBody) : Except ApiError InsertMenuItem :=
  match b.name, b.price, b.categoryId, b.restaurantId with
  | some name, some price, some categoryId, some restaurantId =>
    .ok { name, description := b.description, price
          discountPrice := b.discountPrice, image := b.image
          featured := b.featured, categoryId, restaurantId }
  | _, _, _, _ => .error (.badRequest "Validation error")

/-- Raw body of `POST /api/restaurants/:restaurantId/social-media`. -/
structure SocialMediaLinkBody where
  platform : Option String := none
  url : Option String := none
  restaurantId : Option Nat := none
deriving Repr, DecidableEq

/-- `insertSocialMediaLinkSchema.parse`: all three columns required. -/
def parseInsertSocialMediaLink (b : SocialMediaLinkBody) :
    Except ApiError InsertSocialMediaLink :=
  match b.platform, b.url, b.restaurantId with
  | some platform, some url, some restaurantId =>
    .ok { platform, url, restaurantId }
  | _, _, _ => .error (.badRequest "Validation error")

/-- Raw body of `POST /api/restaurants/:restaurantId/qr-codes`. -/
structure QRCodeBody where
  label : Option String := none
  restaurantId : Option Nat := none
deriving Repr, DecidableEq

/-- `insertQRCodeSchema.parse`: `label` and `restaurantId` required. -/
def parseInsertQRCode (b : QRCodeBody) : Except ApiError InsertQRCode :=
  match b.label, b.restaurantId with
  | some label, some restaurantId => .ok { label, restaurantId }
  | _, _ => .error (.badRequest "Validation error")

/-! Route handlers (`registerRoutes` in `server/routes.ts`), one Lean
function per route, named `<verb><Entity>Handler`.  Middleware that a
route mounts (`superAdminMiddleware`, `validateOwnership`) is inlined at
the top of its handler, in mount order. -/

/-- `DELETE /api/users/:id` (super-admin only). -/
def deleteUserHandler (s : Store) (p : Principal) (id : Nat) :
    Except ApiError Store :=
  if p.role ≠ "super_admin" then .error (.forbidden superAdminRequiredMsg)
  else
    match s.getUser id with
    | none => .error (.notFound "User not found")
    | some u =>
      if u.role = "super_admin" ∧
          (s.getAllUsers.filter (fun x => x.role == "super_admin")).length ≤ 1 then
        .error (.badRequest "Cannot delete the only super admin")
      else
        let (deleted, s1) := s.deleteUser id
        if !deleted then .error (.notFound "User not found")
        else
          .ok (s1.createActivityLog
            { userId := some p.id, action := "delete"
              details := [("username", u.username)]
              entityType := some "user", entityId := some id
              restaurantId := none }).2

/-- `GET /api/restaurants/:id`. -/
def getRestaurantHandler (s : Store) (p : Principal) (id : Nat) :
    Except ApiError Restaurant :=
  match s.getRestaurant id with
  | none => .error (.notFound "Restaurant not found")
  | some r =>
    if p.role ≠ "super_admin" ∧ r.adminId ≠ p.id then
      .error (.forbidden forbiddenRestaurantMsg)
    else .ok r

/-- `POST /api/restaurants`: a non-super-admin caller has the body
`adminId` overwritten with their own id before validation. -/
def createRestaurantHandler (s : Store) (p : Principal) (b : RestaurantBody) :
    Except ApiError (Restaurant × Store) :=
  let b := if p.role ≠ "super_admin" then { b with adminId := some p.id } else b
  match parseInsertRestaurant b with
  | .error e => .error e
  | .ok d =>
    let (r, s1) := s.createRestaurant d
    let s2 := (s1.createActivityLog
      { userId := some p.id, action := "create", details := [("name", r.name)]
        entityType := some "restaurant", entityId := some r.id
        restaurantId := some r.id }).2
    .ok (r, s2)

/-- `PUT /api/restaurants/:id`.  The route mounts `validateOwnership`,
but that middleware reads `req.params.restaurantId`, which is undefined
here (the path param is `:id`), so its `!restaurantId` guard calls
`next()` and no ownership check runs — the middleware receives `none`
below.  The handler body itself performs no inline check (unlike the GET
on the same path), so any authenticated user can update any restaurant;
a non-super-admin caller merely has any body `adminId` deleted. -/
def updateRestaurantHandler (s : Store) (p : Principal) (id : Nat)
    (b : RestaurantPatch) : Except ApiError (Restaurant × Store) :=
  match validateOwnership s p none with
  | some e => .error e
  | none =>
    let b := if p.role ≠ "super_admin" then { b with adminId := none } else b
    let (res, s1) := s.updateRestaurant id b
    match res with
    | none => .error (.notFound "Restaurant not found")
    | some r =>
      let s2 := (s1.createActivityLog
        { userId := some p.id, action := "update", details := [("name", r.name)]
          entityType := some "restaurant", entityId := some r.id
          restaurantId := some r.id }).2
      .ok (r, s2)

/-- `DELETE /api/restaurants/:id` (super-admin only): deletes the
restaurant row and logs; no child entity is touched. -/
def deleteRestaurantHandler (s : Store) (p : Principal) (id : Nat) :
    Except ApiError Store :=
  if p.role ≠ "super_admin" then .error (.forbidden superAdminRequiredMsg)
  else
    match s.getRestaurant id with
    | none => .error (.notFound "Restaurant not found")
    | some r =>
      let (deleted, s1) := s.deleteRestaurant id
      if !deleted then .error (.notFound "Restaurant not found")
      else
        .ok (s1.createActivityLog
          { userId := some p.id, action := "delete"
            details := [("name", r.name)]
            entityType := some "restaurant", entityId := some id
            restaurantId := none }).2

/-- `GET /api/restaurants/:restaurantId/categories` (behind
`validateOwnership`). -/
def listCategoriesHandler (s : Store) (p : Principal) (restaurantId : Nat) :
    Except ApiError (List Category) :=
  match validateOwnership s p (some restaurantId) with
  | some e => .error e
  | none => .ok (s.getCategoriesByRestaurantId restaurantId)

/-- `POST /api/restaurants/:restaurantId/categories` (behind
`validateOwnership`). -/
def createCategoryHandler (s : Store) (p : Principal) (restaurantId : Nat)
    (b : CategoryBody) : Except ApiError (Category × Store) :=
  match validateOwnership s p (some restaurantId) with
  | some e => .error e
  | none =>
    match parseInsertCategory { b with restaurantId := some restaurantId } with
    | .error e => .error e
    | .ok d =>
      let (c, s1) := s.createCategory d
      let s2 := (s1.createActivityLog
        { userId := some p.id, action := "create", details := [("name", c.name)]
          entityType := some "category", entityId := some c.id
          restaurantId := some restaurantId }).2
      .ok (c, s2)

/-- `PUT /api/categories/:id`: category lookup, then parent-restaurant
lookup, then ownership, then the `restaurantId`-stripped merge. -/
def updateCategoryHandler (s : Store) (p : Principal) (id : Nat)
    (b : CategoryPatch) : Except ApiError (Category × Store) :=
  match s.getCategory id with
  | none => .error (.notFound "Category not found")
  | some category =>
    match s.getRestaurant category.restaurantId with
    | none => .error (.notFound "Restaurant not found")
    | some restaurant =>
      if p.role ≠ "super_admin" ∧ restaurant.adminId ≠ p.id then
        .error (.forbidden forbiddenRestaurantMsg)
      else
        let b := { b with restaurantId := none }
        let (res, s1) := s.updateCategory id b
        match res with
        | none => .error (.notFound "Category not found")
        | some c' =>
          let s2 := (s1.createActivityLog
            { userId := some p.id, action := "update"
              details := [("name", c'.name)]
              entityType := some "category", entityId := some c'.id
              restaurantId := some category.restaurantId }).2
          .ok (c', s2)

/-- `DELETE /api/categories/:id`: same check order as the update. -/
def deleteCategoryHandler (s : Store) (p : Principal) (id : Nat) :
    Except ApiError Store :=
  match s.getCategory id with
  | none => .error (.notFound "Category not found")
  | some category =>
    match s.getRestaurant category.restaurantId with
    | none => .error (.notFound "Restaurant not found")
    | some restaurant =>
      if p.role ≠ "super_admin" ∧ restaurant.adminId ≠ p.id then
        .error (.forbidden forbiddenRestaurantMsg)
      else
        let (deleted, s1) := s.deleteCategory id
        if !deleted then .error (.notFound "Category not found")
        else
          .ok (s1.createActivityLog
            { userId := some p.id, action := "delete"
              details := [("name", category.name)]
              entityType := some "category", entityId := some id
              restaurantId := some category.restaurantId }).2

/-- `GET /api/restaurants/:restaurantId/menu-items` (behind
`validateOwnership`). -/
def listMenuItemsHandler (s : Store) (p : Principal) (restaurantId : Nat) :
    Except ApiError (List MenuItem) :=
  match validateOwnership s p (some restaurantId) with
  | some e => .error e
  | none => .ok (s.getMenuItemsByRestaurantId restaurantId)

/-- `GET /api/categories/:categoryId/menu-items`: category lookup, parent
lookup, ownership, then the list. -/
def listMenuItemsByCategoryHandler (s : Store) (p : Principal)
    (categoryId : Nat) : Except ApiError (List MenuItem) :=
  match s.getCategory categoryId with
  | none => .error (.notFound "Category not found")
  | some category =>
    match s.getRestaurant category.restaurantId with
    | none => .error (.notFound "Restaurant not found")
    | some restaurant =>
      if p.role ≠ "super_admin" ∧ restaurant.adminId ≠ p.id then
        .error (.forbidden forbiddenRestaurantMsg)
      else .ok (s.getMenuItemsByCategoryId categoryId)

/-- `POST /api/restaurants/:restaurantId/menu-items` (behind
`validateOwnership`): a truthy body `categoryId` must name an existing
category of this restaurant (`if (categoryId) { ... }`). -/
def createMenuItemHandler (s : Store) (p : Principal) (restaurantId : Nat)
    (b : MenuItemBody) : Except ApiError (MenuItem × Store) :=
  match validateOwnership s p (some restaurantId) with
  | some e => .error e
  | none =>
    let catCheck : Option ApiError :=
      if truthyNat b.categoryId then
        match s.getCategory (b.categoryId.getD 0) with
        | none => some (.badRequest "Category does not belong to this restaurant")
        | some category =>
          if category.restaurantId ≠ restaurantId then
            some (.badRequest "Category does not belong to this restaurant")
          else none
      else none
    match catCheck with
    | some e => .error e
    | none =>
      match parseInsertMenuItem { b with restaurantId := some restaurantId } with
      | .error e => .error e
      | .ok d =>
        let (m, s1) := s.createMenuItem d
        let s2 := (s1.createActivityLog
          { userId := some p.id, action := "create"
            details := [("name", m.name)]
            entityType := some "menuItem", entityId := some m.id
            restaurantId := some restaurantId }).2
        .ok (m, s2)

/-- `PUT /api/menu-items/:id`: item lookup, parent lookup, ownership;
the category check runs only for a truthy body `categoryId` that differs
from the item's current one
(`if (req.body.categoryId && req.body.categoryId !== menuItem.categoryId)`). -/
def updateMenuItemHandler (s : Store) (p : Principal) (id : Nat)
    (b : MenuItemPatch) : Except ApiError (MenuItem × Store) :=
  match s.getMenuItem id with
  | none => .error (.notFound "Menu item not found")
  | some menuItem =>
    match s.getRestaurant menuItem.restaurantId with
    | none => .error (.notFound "Restaurant not found")
    | some restaurant =>
      if p.role ≠ "super_admin" ∧ restaurant.adminId ≠ p.id then
        .error (.forbidden forbiddenRestaurantMsg)
      else
        let catCheck : Option ApiError :=
          if truthyNat b.categoryId ∧ b.categoryId.getD 0 ≠ menuItem.categoryId then
            match s.getCategory (b.categoryId.getD 0) with
            | none => some (.badRequest "Category does not belong to this restaurant")
            | some category =>
              if category.restaurantId ≠ menuItem.restaurantId then
                some (.badRequest "Category does not belong to this restaurant")
              else none
          else none
        match catCheck with
        | some e => .error e
        | none =>
          let b := { b with restaurantId := none }
          let (res, s1) := s.updateMenuItem id b
          match res with
          | none => .error (.notFound "Menu item not found")
          | some m' =>
            let s2 := (s1.createActivityLog
              { userId := some p.id, action := "update"
                details := [("name", m'.name)]
                entityType := some "menuItem", entityId := some m'.id
                restaurantId := some menuItem.restaurantId }).2
            .ok (m', s2)

/-- `DELETE /api/menu-items/:id`. -/
def deleteMenuItemHandler (s : Store) (p : Principal) (id : Nat) :
    Except ApiError Store :=
  match s.getMenuItem id with
  | none => .error (.notFound "Menu item not found")
  | some menuItem =>
    match s.getRestaurant menuItem.restaurantId with
    | none => .error (.notFound "Restaurant not found")
    | some restaurant =>
      if p.role ≠ "super_admin" ∧ restaurant.adminId ≠ p.id then
        .error (.forbidden forbiddenRestaurantMsg)
      else
        let (deleted, s1) := s.deleteMenuItem id
        if !deleted then .error (.notFound "Menu item not found")
        else
          .ok (s1.createActivityLog
            { userId := some p.id, action := "delete"
              details := [("name", menuItem.name)]
              entityType := some "menuItem", entityId := some id
              restaurantId := some menuItem.restaurantId }).2

/-- `GET /api/restaurants/:restaurantId/social-media` (behind
`validateOwnership`). -/
def listSocialMediaHandler (s : Store) (p : Principal) (restaurantId : Nat) :
    Except ApiError (List SocialMediaLink) :=
  match validateOwnership s p (some restaurantId) with
  | some e => .error e
  | none => .ok (s.getSocialMediaLinksByRestaurantId restaurantId)

/-- `POST /api/restaurants/:restaurantId/social-media` (behind
`validateOwnership`). -/
def createSocialMediaHandler (s : Store) (p : Principal) (restaurantId : Nat)
    (b : SocialMediaLinkBody) : Except ApiError (SocialMediaLink × Store) :=
  match validateOwnership s p (some restaurantId) with
  | some e => .error e
  | none =>
    match parseInsertSocialMediaLink { b with restaurantId := some restaurantId } with
    | .error e => .error e
    | .ok d =>
      let (l, s1) := s.createSocialMediaLink d
      let s2 := (s1.createActivityLog
        { userId := some p.id, action := "create"
          details := [("platform", l.platform)]
          entityType := some "socialMediaLink", entityId := some l.id
          restaurantId := some restaurantId }).2
      .ok (l, s2)

/-- `PUT /api/social-media/:id`. -/
def updateSocialMediaHandler (s : Store) (p : Principal) (id : Nat)
    (b : SocialMediaLinkPatch) : Except ApiError (SocialMediaLink × Store) :=
  match s.getSocialMediaLink id with
  | none => .error (.notFound "Social media link not found")
  | some link =>
    match s.getRestaurant link.restaurantId with
    | none => .error (.notFound "Restaurant not found")
    | some restaurant =>
      if p.role ≠ "super_admin" ∧ restaurant.adminId ≠ p.id then
        .error (.forbidden forbiddenRestaurantMsg)
      else
        let b := { b with restaurantId := none }
        let (res, s1) := s.updateSocialMediaLink id b
        match res with
        | none => .error (.notFound "Social media link not found")
        | some l' =>
          let s2 := (s1.createActivityLog
            { userId := some p.id, action := "update"
              details := [("platform", l'.platform)]
              entityType := some "socialMediaLink", entityId := some l'.id
              restaurantId := some link.restaurantId }).2
          .ok (l', s2)

/-- `DELETE /api/social-media/:id`. -/
def deleteSocialMediaHandler (s : Store) (p : Principal) (id : Nat) :
    Except ApiError Store :=
  match s.getSocialMediaLink id with
  | none => .error (.notFound "Social media link not found")
  | some link =>
    match s.getRestaurant link.restaurantId with
    | none => .error (.notFound "Restaurant not found")
    | some restaurant =>
      if p.role ≠ "super_admin" ∧ restaurant.adminId ≠ p.id then
        .error (.forbidden forbiddenRestaurantMsg)
      else
        let (deleted, s1) := s.deleteSocialMediaLink id
        if !deleted then .error (.notFound "Social media link not found")
        else
          .ok (s1.createActivityLog
            { userId := some p.id, action := "delete"
              details := [("platform", link.platform)]
              entityType := some "socialMediaLink", entityId := some id
              restaurantId := some link.restaurantId }).2

/-- `GET /api/restaurants/:restaurantId/qr-codes` (behind
`validateOwnership`). -/
def listQRCodesHandler (s : Store) (p : Principal) (restaurantId : Nat) :
    Except ApiError (List QRCode) :=
  match validateOwnership s p (some restaurantId) with
  | some e => .error e
  | none => .ok (s.getQRCodesByRestaurantId restaurantId)

/-- `POST /api/restaurants/:restaurantId/qr-codes` (behind
`validateOwnership`). -/
def createQRCodeHandler (s : Store) (p : Principal) (restaurantId : Nat)
    (b : QRCodeBody) : Except ApiError (QRCode × Store) :=
  match validateOwnership s p (some restaurantId) with
  | some e => .error e
  | none =>
    match parseInsertQRCode { b with restaurantId := some restaurantId } with
    | .error e => .error e
    | .ok d =>
      let (q, s1) := s.createQRCode d
      let s2 := (s1.createActivityLog
        { userId := some p.id, action := "create"
          details := [("label", q.label)]
          entityType := some "qrCode", entityId := some q.id
          restaurantId := some restaurantId }).2
      .ok (q, s2)

/-- `DELETE /api/qr-codes/:id`. -/
def deleteQRCodeHandler (s : Store) (p : Principal) (id : Nat) :
    Except ApiError Store :=
  match s.getQRCode id with
  | none => .error (.notFound "QR code not found")
  | some qrCode =>
    match s.getRestaurant qrCode.restaurantId with
    | none => .error (.notFound "Restaurant not found")
    | some restaurant =>
      if p.role ≠ "super_admin" ∧ restaurant.adminId ≠ p.id then
        .error (.forbidden forbiddenRestaurantMsg)
      else
        let (deleted, s1) := s.deleteQRCode id
        if !deleted then .error (.notFound "QR code not found")
        else
          .ok (s1.createActivityLog
            { userId := some p.id, action := "delete"
              details := [("label", qrCode.label)]
              entityType := some "qrCode", entityId := some id
              restaurantId := some qrCode.restaurantId }).2

/-- `GET /api/restaurants/:restaurantId/activity` (behind
`validateOwnership`). -/
def listRestaurantActivityHandler (s : Store) (p : Principal)
    (restaurantId : Nat) : Except ApiError (List ActivityLog) :=
  match validateOwnership s p (some restaurantId) with
  | some e => .error e
  | none => .ok (s.getActivityLogsByRestaurantId restaurantId)

/-! Public menu aggregation (`GET
/api/public/restaurants/:restaurantId/menu`, no auth middleware). -/

/-- A `{ ...category, items }` entry of the categorized menu. -/
structure PublicCategory where
  category : Category
  items : List MenuItem
deriving Repr, DecidableEq

/-- The `restaurant` object literal of the public-menu response: exactly
the nine keys written in the source, in source order. -/
def publicRestaurantObj (r : Restaurant) : List (String × JVal) :=
  [("id", .jnum r.id),
   ("name", .jstr r.name),
   ("description", jOptStr r.description),
   ("logo", jOptStr r.logo),
   ("primaryColor", jOptStr r.primaryColor),
   ("secondaryColor", jOptStr r.secondaryColor),
   ("rtl", jOptBool r.rtl),
   ("phone", jOptStr r.phone),
   ("address", jOptStr r.address)]

/-- The public-menu response document. -/
structure PublicMenu where
  restaurantFields : List (String × JVal)
  categories : List PublicCategory
  socialMediaLinks : List SocialMediaLink
deriving Repr, DecidableEq

/-- `GET /api/public/restaurants/:restaurantId/menu`: 404 when the
restaurant is missing or not `active`; otherwise the restaurant's
categories (displayOrder-sorted), each carrying the restaurant's menu
items filtered to its own id, plus the social links. -/
def publicMenuHandler (s : Store) (restaurantId : Nat) :
    Except ApiError PublicMenu :=
  match s.getRestaurant restaurantId with
  | none => .error (.notFound "Restaurant not found")
  | some restaurant =>
    if restaurant.status ≠ "active" then
      .error (.notFound "Restaurant menu not available")
    else
      let categories := s.getCategoriesByRestaurantId restaurantId
      let menuItems := s.getMenuItemsByRestaurantId restaurantId
      let socialMediaLinks := s.getSocialMediaLinksByRestaurantId restaurantId
      let categorizedMenu := categories.map (fun category =>
        { category, items := menuItems.filter (fun i => i.categoryId == category.id) })
      .ok { restaurantFields := publicRestaurantObj restaurant
            categories := categorizedMenu
            socialMediaLinks }

/-! Predicates and fixtures used by the theorems below. -/

/-- An error that withholds the resource: Forbidden (403) or NotFound
(404). -/
def ApiError.isDenial : ApiError → Bool
  | .forbidden _ => true
  | .notFound _ => true
  | _ => false

/-- A handler outcome that denies the request with 403 or 404; an
`Except.error` carries no data and no store, so nothing is returned and
nothing is written. -/
def denies {α : Type} (res : Except ApiError α) : Prop :=
  ∃ e, res = Except.error e ∧ e.isDenial = true

/-- A store is item-category consistent when every menu item whose
`categoryId` names a stored category agrees with it on `restaurantId`
(the invariant the menu-item create/update checks try to maintain). -/
def itemCategoryConsistent (s : Store) : Prop :=
  ∀ m ∈ s.menuItems, ∀ c ∈ s.categories, m.categoryId = c.id →
    m.restaurantId = c.restaurantId

/-- Fixture: the seeded super admin. -/
def uAdmin : User :=
  { id := 1, username := "admin", password := "admin123", name := "Super Admin"
    email := "admin@example.com", role := "super_admin" }

/-- Fixture: restaurant admin Bob (id 7). -/
def uBob : User :=
  { id := 7, username := "bob", password := "pw1", name := "Bob"
    email := "bob@example.com", role := "restaurant_admin" }

/-- Fixture: restaurant admin Carol (id 9). -/
def uCarol : User :=
  { id := 9, username := "carol", password := "pw2", name := "Carol"
    email := "carol@example.com", role := "restaurant_admin" }

/-- Fixture: restaurant 1, owned by Bob, active. -/
def rFalafel : Restaurant :=
  { id := 1, name := "Falafel House", description := some "Fresh falafel"
    logo := none, phone := some "03-555-1234", email := some "info@falafel.example"
    address := some "Tel Aviv", adminId := 7, status := "active"
    primaryColor := some "#4CAF50", secondaryColor := none, rtl := some true }

/-- Fixture: restaurant 2, owned by Carol, active. -/
def rShawarma : Restaurant :=
  { id := 2, name := "Shawarma Palace", description := none, logo := none
    phone := none, email := none, address := none, adminId := 9
    status := "active", primaryColor := none, secondaryColor := none
    rtl := some true }

/-- Fixture: an empty store with counters past the fixture ids. -/
def baseStore : Store :=
  { users := [uAdmin, uBob, uCarol], restaurants := [], categories := []
    menuItems := [], socialMediaLinks := [], qrCodes := [], activityLogs := []
    userIdCounter := 10, restaurantIdCounter := 10, categoryIdCounter := 10
    menuItemIdCounter := 10, socialMediaLinkIdCounter := 10
    qrCodeIdCounter := 10, activityLogIdCounter := 10 }

end RestaurantMaster

namespace RestaurantMaster

/-- C7 — `POST /api/restaurants` by a non-super-admin overwrites any body
`adminId` with the caller's id before validation, so the created
restaurant always belongs to the caller. -/
theorem create_restaurant_forces_caller_adminId
    (s : Store) (p : Principal) (b : RestaurantBody) (r : Restaurant) (s' : Store)
    (hrole : p.role ≠ "super_admin")
    (h : createRestaurantHandler s p b = .ok (r, s')) :
    r.adminId = p.id := by
  unfold createRestaurantHandler parseInsertRestaurant at h
  rw [if_pos hrole] at h
  cases hb : b.name with
  | none =>
    simp only [hb] at h
    exact absurd h (by simp)
  | some name =>
    simp only [hb, Store.createRestaurant, Except.ok.injEq, Prod.mk.injEq] at h
    rw [← h.1]

/-- Witness for C7 at a concrete store and payload: the payload asks for
`adminId = 9`, the caller is restaurant admin Bob (id 7), and the
created restaurant ends up with `adminId = 7`. -/
theorem create_restaurant_forces_caller_adminId_witness :
    (⟨7, "restaurant_admin"⟩ : Principal).role ≠ "super_admin" ∧
    ∃ r s', createRestaurantHandler baseStore ⟨7, "restaurant_admin"⟩
        { name := some "Hummus Haven", adminId := some 9 } = .ok (r, s') ∧
      r.adminId = 7 := by
  refine ⟨by decide, ?_⟩
  cases hres : createRestaurantHandler baseStore ⟨7, "restaurant_admin"⟩
      { name := some "Hummus Haven", adminId := some 9 } with
  | error e =>
    have hnone : (createRestaurantHandler baseStore ⟨7, "restaurant_admin"⟩
        { name := some "Hummus Haven", adminId := some 9 }).toOption = none := by
      rw [hres]
      rfl
    exact absurd hnone (by decide)
  | ok rs =>
    obtain ⟨r, st⟩ := rs
    refine ⟨r, st, rfl, ?_⟩
    exact create_restaurant_forces_caller_adminId baseStore ⟨7, "restaurant_admin"⟩
      { name := some "Hummus Haven", adminId := some 9 } r st (by decide) hres

/-- C8 — `DELETE /api/users/:id` on a super_admin target: rejected with a
400 when at most one super_admin exists (the error result carries no
store, so the user set is unchanged); with two or more super_admins the
deletion succeeds and removes exactly the target. -/
theorem delete_user_last_super_admin
    (s : Store) (p : Principal) (id : Nat) (u : User)
    (hrole : p.role = "super_admin")
    (hu : s.getUser id = some u) (hur : u.role = "super_admin") :
    ((s.getAllUsers.filter (fun x => x.role == "super_admin")).length ≤ 1 →
      deleteUserHandler s p id =
        .error (.badRequest "Cannot delete the only super admin")) ∧
    (2 ≤ (s.getAllUsers.filter (fun x => x.role == "super_admin")).length →
      ∃ s', deleteUserHandler s p id = .ok s' ∧
        s'.users = s.users.filter (fun v => v.id != id)) := by
  have hu' : List.find? (fun v => v.id == id) s.users = some u := hu
  have hpu : (u.id == id) = true := by
    have hq := List.find?_some hu'
    simpa using hq
  have hdel : s.users.any (fun v => v.id == id) = true :=
    List.any_eq_true.mpr ⟨u, List.mem_of_find?_eq_some hu', hpu⟩
  constructor
  · intro hle
    unfold deleteUserHandler
    rw [if_neg (by simp [hrole])]
    simp only [hu]
    rw [if_pos ⟨hur, hle⟩]
  · intro hge
    have hcond : ¬(u.role = "super_admin" ∧
        (s.getAllUsers.filter (fun x => x.role == "super_admin")).length ≤ 1) := by
      rintro ⟨-, hle⟩
      omega
    unfold deleteUserHandler
    rw [if_neg (by simp [hrole])]
    simp only [hu]
    rw [if_neg hcond]
    simp only [Store.deleteUser, hdel, Bool.not_true, Bool.false_eq_true,
      if_false, reduceIte]
    exact ⟨_, rfl, by simp [Store.createActivityLog]⟩

/-- Fixture: a second super admin (id 2). -/
def uDan : User :=
  { id := 2, username := "dan", password := "pw3", name := "Dan"
    email := "dan@example.com", role := "super_admin" }

/-- Fixture: a store with two super admins. -/
def twoAdminStore : Store :=
  { baseStore with users := [uAdmin, uDan, uBob] }

/-- Witness for C8: in `baseStore` user 1 is the only super_admin and
deleting them is rejected; in `twoAdminStore` there are two super_admins
and deleting user 2 succeeds and removes exactly that user. -/
theorem delete_user_last_super_admin_witness :
    deleteUserHandler baseStore ⟨1, "super_admin"⟩ 1 =
      .error (.badRequest "Cannot delete the only super admin") ∧
    ∃ s', deleteUserHandler twoAdminStore ⟨1, "super_admin"⟩ 2 = .ok s' ∧
      s'.users = twoAdminStore.users.filter (fun v => v.id != 2) := by
  constructor
  · exact (delete_user_last_super_admin baseStore ⟨1, "super_admin"⟩ 1 uAdmin
      rfl (by decide) rfl).1 (by decide)
  · exact (delete_user_last_super_admin twoAdminStore ⟨1, "super_admin"⟩ 2 uDan
      rfl (by decide) rfl).2 (by decide)

/-- Fixture: Bob already owns restaurant 1. -/
def oneRestStore : Store :=
  { baseStore with restaurants := [rFalafel] }

/-- C2 counterexample — in `oneRestStore` admin 7 (Bob) already owns one
restaurant, yet a super-admin create request naming `adminId = 7`
succeeds and leaves Bob owning two restaurants: the handler never checks
prior ownership. -/
theorem create_restaurant_no_ownership_check_cex :
    (oneRestStore.getRestaurantsByAdminId 7).length = 1 ∧
    ((createRestaurantHandler oneRestStore ⟨1, "super_admin"⟩
        { name := some "Bob Second", adminId := some 7 }).toOption.map
      (fun rs => (rs.1.adminId, (rs.2.getRestaurantsByAdminId 7).length)))
      = some (7, 2) := by
  decide

/-- C2 amended — `POST /api/restaurants` performs no prior-ownership
check: for every store, a super-admin create request with a valid body
succeeds and appends a restaurant carrying the requested `adminId`,
regardless of how many restaurants that admin already owns. -/
theorem create_restaurant_appends_unconditionally
    (s : Store) (p : Principal) (b : RestaurantBody) (name : String) (adminId : Nat)
    (hrole : p.role = "super_admin")
    (hn : b.name = some name) (ha : b.adminId = some adminId) :
    ∃ r s', createRestaurantHandler s p b = .ok (r, s') ∧
      r.adminId = adminId ∧
      s'.restaurants = s.restaurants ++ [r] := by
  unfold createRestaurantHandler parseInsertRestaurant
  rw [if_neg (by simp [hrole])]
  simp only [hn, ha, Store.createRestaurant, Store.createActivityLog]
  exact ⟨_, _, rfl, rfl, rfl⟩

/-- Witness for the amended C2 at the counterexample store. -/
theorem create_restaurant_appends_unconditionally_witness :
    ∃ r s', createRestaurantHandler oneRestStore ⟨1, "super_admin"⟩
        { name := some "Bob Second", adminId := some 7 } = .ok (r, s') ∧
      r.adminId = 7 ∧
      s'.restaurants = oneRestStore.restaurants ++ [r] :=
  create_restaurant_appends_unconditionally oneRestStore ⟨1, "super_admin"⟩
    { name := some "Bob Second", adminId := some 7 } "Bob Second" 7 rfl rfl rfl

/-- Fixture: a category of restaurant 1. -/
def cFal : Category :=
  { id := 1, name := "Mains", description := none, icon := some "utensils"
    displayOrder := some 1, restaurantId := 1 }

/-- Fixture: a menu item of restaurant 1 in category 1. -/
def mFal : MenuItem :=
  { id := 1, name := "Falafel Plate", description := none, price := 30
    discountPrice := none, image := none, featured := some false
    categoryId := 1, restaurantId := 1 }

/-- Fixture: a social link of restaurant 1. -/
def lFal : SocialMediaLink :=
  { id := 1, platform := "instagram", url := "https://social.example/falafel"
    restaurantId := 1 }

/-- Fixture: a QR code of restaurant 1. -/
def qFal : QRCode :=
  { id := 1, label := "Table QR", restaurantId := 1 }

/-- Fixture: restaurant 1 with one child of each kind. -/
def fullStore : Store :=
  { baseStore with
      restaurants := [rFalafel], categories := [cFal], menuItems := [mFal],
      socialMediaLinks := [lFal], qrCodes := [qFal] }

/-- C9 counterexample — deleting restaurant 1 from `fullStore` succeeds
but leaves its category, menu item, social link and QR code in the
store: no cascade happens. -/
theorem delete_restaurant_no_cascade_cex :
    ((deleteRestaurantHandler fullStore ⟨1, "super_admin"⟩ 1).toOption.map
      (fun s' => (s'.restaurants.length, s'.categories.length,
        s'.menuItems.length, s'.socialMediaLinks.length, s'.qrCodes.length)))
      = some (0, 1, 1, 1, 1) := by
  decide

/-- C9 amended — `DELETE /api/restaurants/:id` removes exactly the
restaurant row: the categories, menu items, social links and QR codes
lists are untouched (children are orphaned, not cascaded). -/
theorem delete_restaurant_only_removes_restaurant
    (s : Store) (p : Principal) (id : Nat) (r : Restaurant)
    (hrole : p.role = "super_admin") (hr : s.getRestaurant id = some r) :
    ∃ s', deleteRestaurantHandler s p id = .ok s' ∧
      s'.restaurants = s.restaurants.filter (fun x => x.id != id) ∧
      s'.categories = s.categories ∧
      s'.menuItems = s.menuItems ∧
      s'.socialMediaLinks = s.socialMediaLinks ∧
      s'.qrCodes = s.qrCodes := by
  have hr' : List.find? (fun x => x.id == id) s.restaurants = some r := hr
  have hp : (r.id == id) = true := by simpa using List.find?_some hr'
  have hdel : s.restaurants.any (fun x => x.id == id) = true :=
    List.any_eq_true.mpr ⟨r, List.mem_of_find?_eq_some hr', hp⟩
  unfold deleteRestaurantHandler
  rw [if_neg (by simp [hrole])]
  simp only [hr]
  simp only [Store.deleteRestaurant, hdel, Bool.not_true, Bool.false_eq_true,
    if_false, reduceIte]
  exact ⟨_, rfl, by simp [Store.createActivityLog],
    by simp [Store.createActivityLog], by simp [Store.createActivityLog],
    by simp [Store.createActivityLog], by simp [Store.createActivityLog]⟩

/-- Witness for the amended C9 at the counterexample store. -/
theorem delete_restaurant_only_removes_restaurant_witness :
    ∃ s', deleteRestaurantHandler fullStore ⟨1, "super_admin"⟩ 1 = .ok s' ∧
      s'.restaurants = fullStore.restaurants.filter (fun x => x.id != 1) ∧
      s'.categories = fullStore.categories ∧
      s'.menuItems = fullStore.menuItems ∧
      s'.socialMediaLinks = fullStore.socialMediaLinks ∧
      s'.qrCodes = fullStore.qrCodes :=
  delete_restaurant_only_removes_restaurant fullStore ⟨1, "super_admin"⟩ 1
    rFalafel rfl (by decide)

/-- Fixture: the children of restaurant 1 without the restaurant itself
(the state `fullStore` reaches after C9's non-cascading delete). -/
def orphanStore : Store :=
  { baseStore with
      categories := [cFal], menuItems := [mFal], socialMediaLinks := [lFal],
      qrCodes := [qFal] }

/-- C10 counterexample — restaurant 1 does not exist in `orphanStore`,
yet the super-admin category listing for it succeeds with a NON-empty
collection (the orphaned category), not the empty collection the claim
promises for every nonexistent restaurant id. -/
theorem super_admin_list_orphans_cex :
    orphanStore.getRestaurant 1 = none ∧
    ((listCategoriesHandler orphanStore ⟨1, "super_admin"⟩ 1).toOption.map
      List.length) = some 1 := by
  decide

/-- C10 amended — for a super_admin caller the ownership middleware skips
the restaurant-existence lookup entirely, so every restaurant-scoped
list endpoint succeeds (never NotFound) and returns exactly the child
rows carrying that restaurantId; the collection is empty precisely when
no such rows exist (e.g. a never-used id), but can be non-empty for the
orphans of a deleted restaurant. -/
theorem super_admin_list_skips_existence
    (s : Store) (p : Principal) (rid : Nat) (hrole : p.role = "super_admin") :
    listCategoriesHandler s p rid = .ok (s.getCategoriesByRestaurantId rid) ∧
    listMenuItemsHandler s p rid = .ok (s.getMenuItemsByRestaurantId rid) ∧
    listSocialMediaHandler s p rid = .ok (s.getSocialMediaLinksByRestaurantId rid) ∧
    listQRCodesHandler s p rid = .ok (s.getQRCodesByRestaurantId rid) ∧
    listRestaurantActivityHandler s p rid =
      .ok (s.getActivityLogsByRestaurantId rid) ∧
    ((s.categories.all fun c => c.restaurantId != rid) = true →
      listCategoriesHandler s p rid = .ok []) ∧
    ((s.menuItems.all fun m => m.restaurantId != rid) = true →
      listMenuItemsHandler s p rid = .ok []) ∧
    ((s.socialMediaLinks.all fun l => l.restaurantId != rid) = true →
      listSocialMediaHandler s p rid = .ok []) ∧
    ((s.qrCodes.all fun q => q.restaurantId != rid) = true →
      listQRCodesHandler s p rid = .ok []) ∧
    ((s.activityLogs.all fun l => l.restaurantId != some rid) = true →
      listRestaurantActivityHandler s p rid = .ok []) := by
  have hmw : validateOwnership s p (some rid) = none := by
    unfold validateOwnership
    dsimp only
    rw [if_pos hrole]
  refine ⟨?_, ?_, ?_, ?_, ?_, ?_, ?_, ?_, ?_, ?_⟩ <;>
    simp only [listCategoriesHandler, listMenuItemsHandler,
      listSocialMediaHandler, listQRCodesHandler,
      listRestaurantActivityHandler, hmw]
  · intro hall
    have hnil : s.categories.filter (fun c => c.restaurantId == rid) = [] := by
      rw [List.filter_eq_nil_iff]
      intro c hc
      have := List.all_eq_true.mp hall c hc
      simpa using this
    simp [Store.getCategoriesByRestaurantId, hnil]
  · intro hall
    have hnil : s.menuItems.filter (fun m => m.restaurantId == rid) = [] := by
      rw [List.filter_eq_nil_iff]
      intro m hm
      have := List.all_eq_true.mp hall m hm
      simpa using this
    simp [Store.getMenuItemsByRestaurantId, hnil]
  · intro hall
    have hnil : s.socialMediaLinks.filter (fun l => l.restaurantId == rid) = [] := by
      rw [List.filter_eq_nil_iff]
      intro l hl
      have := List.all_eq_true.mp hall l hl
      simpa using this
    simp [Store.getSocialMediaLinksByRestaurantId, hnil]
  · intro hall
    have hnil : s.qrCodes.filter (fun q => q.restaurantId == rid) = [] := by
      rw [List.filter_eq_nil_iff]
      intro q hq
      have := List.all_eq_true.mp hall q hq
      simpa using this
    simp [Store.getQRCodesByRestaurantId, hnil]
  · intro hall
    have hnil : s.activityLogs.filter (fun l => l.restaurantId == some rid) = [] := by
      rw [List.filter_eq_nil_iff]
      intro l hl
      have := List.all_eq_true.mp hall l hl
      simpa using this
    simp [Store.getActivityLogsByRestaurantId, hnil]

/-- Witness for the amended C10: restaurant 2 never existed in
`orphanStore` and has no child rows, so all five listings succeed with
the empty collection. -/
theorem super_admin_list_skips_existence_witness :
    orphanStore.getRestaurant 2 = none ∧
    listCategoriesHandler orphanStore ⟨1, "super_admin"⟩ 2 = .ok [] ∧
    listMenuItemsHandler orphanStore ⟨1, "super_admin"⟩ 2 = .ok [] ∧
    listSocialMediaHandler orphanStore ⟨1, "super_admin"⟩ 2 = .ok [] ∧
    listQRCodesHandler orphanStore ⟨1, "super_admin"⟩ 2 = .ok [] ∧
    listRestaurantActivityHandler orphanStore ⟨1, "super_admin"⟩ 2 = .ok [] := by
  have h := super_admin_list_skips_existence orphanStore ⟨1, "super_admin"⟩ 2 rfl
  exact ⟨by decide, h.2.2.2.2.2.1 (by decide), h.2.2.2.2.2.2.1 (by decide),
    h.2.2.2.2.2.2.2.1 (by decide), h.2.2.2.2.2.2.2.2.1 (by decide),
    h.2.2.2.2.2.2.2.2.2 (by decide)⟩

/-- C3 — on every entity-addressed nested-resource handler the checks run
in the order: existence of the immediate entity (404, for every
principal, before any ownership check), then existence of its parent
restaurant (404), then ownership (403 for a non-owning
restaurant_admin). -/
theorem nested_resource_check_order (s : Store) :
    (∀ p id b, s.getCategory id = none →
      updateCategoryHandler s p id b = .error (.notFound "Category not found")) ∧
    (∀ p id b c, s.getCategory id = some c →
      s.getRestaurant c.restaurantId = none →
      updateCategoryHandler s p id b = .error (.notFound "Restaurant not found")) ∧
    (∀ p id b c r, s.getCategory id = some c →
      s.getRestaurant c.restaurantId = some r →
      p.role = "restaurant_admin" → r.adminId ≠ p.id →
      updateCategoryHandler s p id b = .error (.forbidden forbiddenRestaurantMsg)) ∧
    (∀ p id, s.getCategory id = none →
      deleteCategoryHandler s p id = .error (.notFound "Category not found")) ∧
    (∀ p id c, s.getCategory id = some c →
      s.getRestaurant c.restaurantId = none →
      deleteCategoryHandler s p id = .error (.notFound "Restaurant not found")) ∧
    (∀ p id c r, s.getCategory id = some c →
      s.getRestaurant c.restaurantId = some r →
      p.role = "restaurant_admin" → r.adminId ≠ p.id →
      deleteCategoryHandler s p id = .error (.forbidden forbiddenRestaurantMsg)) ∧
    (∀ p id, s.getCategory id = none →
      listMenuItemsByCategoryHandler s p id =
        .error (.notFound "Category not found")) ∧
    (∀ p id c, s.getCategory id = some c →
      s.getRestaurant c.restaurantId = none →
      listMenuItemsByCategoryHandler s p id =
        .error (.notFound "Restaurant not found")) ∧
    (∀ p id c r, s.getCategory id = some c →
      s.getRestaurant c.restaurantId = some r →
      p.role = "restaurant_admin" → r.adminId ≠ p.id →
      listMenuItemsByCategoryHandler s p id =
        .error (.forbidden forbiddenRestaurantMsg)) ∧
    (∀ p id b, s.getMenuItem id = none →
      updateMenuItemHandler s p id b = .error (.notFound "Menu item not found")) ∧
    (∀ p id b m, s.getMenuItem id = some m →
      s.getRestaurant m.restaurantId = none →
      updateMenuItemHandler s p id b = .error (.notFound "Restaurant not found")) ∧
    (∀ p id b m r, s.getMenuItem id = some m →
      s.getRestaurant m.restaurantId = some r →
      p.role = "restaurant_admin" → r.adminId ≠ p.id →
      updateMenuItemHandler s p id b = .error (.forbidden forbiddenRestaurantMsg)) ∧
    (∀ p id, s.getMenuItem id = none →
      deleteMenuItemHandler s p id = .error (.notFound "Menu item not found")) ∧
    (∀ p id m, s.getMenuItem id = some m →
      s.getRestaurant m.restaurantId = none →
      deleteMenuItemHandler s p id = .error (.notFound "Restaurant not found")) ∧
    (∀ p id m r, s.getMenuItem id = some m →
      s.getRestaurant m.restaurantId = some r →
      p.role = "restaurant_admin" → r.adminId ≠ p.id →
      deleteMenuItemHandler s p id = .error (.forbidden forbiddenRestaurantMsg)) ∧
    (∀ p id b, s.getSocialMediaLink id = none →
      updateSocialMediaHandler s p id b =
        .error (.notFound "Social media link not found")) ∧
    (∀ p id b l, s.getSocialMediaLink id = some l →
      s.getRestaurant l.restaurantId = none →
      updateSocialMediaHandler s p id b =
        .error (.notFound "Restaurant not found")) ∧
    (∀ p id b l r, s.getSocialMediaLink id = some l →
      s.getRestaurant l.restaurantId = some r →
      p.role = "restaurant_admin" → r.adminId ≠ p.id →
      updateSocialMediaHandler s p id b =
        .error (.forbidden forbiddenRestaurantMsg)) ∧
    (∀ p id, s.getSocialMediaLink id = none →
      deleteSocialMediaHandler s p id =
        .error (.notFound "Social media link not found")) ∧
    (∀ p id l, s.getSocialMediaLink id = some l →
      s.getRestaurant l.restaurantId = none →
      deleteSocialMediaHandler s p id =
        .error (.notFound "Restaurant not found")) ∧
    (∀ p id l r, s.getSocialMediaLink id = some l →
      s.getRestaurant l.restaurantId = some r →
      p.role = "restaurant_admin" → r.adminId ≠ p.id →
      deleteSocialMediaHandler s p id =
        .error (.forbidden forbiddenRestaurantMsg)) ∧
    (∀ p id, s.getQRCode id = none →
      deleteQRCodeHandler s p id = .error (.notFound "QR code not found")) ∧
    (∀ p id q, s.getQRCode id = some q →
      s.getRestaurant q.restaurantId = none →
      deleteQRCodeHandler s p id = .error (.notFound "Restaurant not found")) ∧
    (∀ p id q r, s.getQRCode id = some q →
      s.getRestaurant q.restaurantId = some r →
      p.role = "restaurant_admin" → r.adminId ≠ p.id →
      deleteQRCodeHandler s p id = .error (.forbidden forbiddenRestaurantMsg)) := by
  refine ⟨?_, ?_, ?_, ?_, ?_, ?_, ?_, ?_, ?_, ?_, ?_, ?_, ?_, ?_, ?_, ?_, ?_,
    ?_, ?_, ?_, ?_, ?_, ?_, ?_⟩
  · intro p id b h
    unfold updateCategoryHandler
    simp only [h]
  · intro p id b c h1 h2
    unfold updateCategoryHandler
    simp only [h1, h2]
  · intro p id b c r h1 h2 hrole hne
    unfold updateCategoryHandler
    simp only [h1, h2]
    rw [if_pos ⟨by simp [hrole], hne⟩]
  · intro p id h
    unfold deleteCategoryHandler
    simp only [h]
  · intro p id c h1 h2
    unfold deleteCategoryHandler
    simp only [h1, h2]
  · intro p id c r h1 h2 hrole hne
    unfold deleteCategoryHandler
    simp only [h1, h2]
    rw [if_pos ⟨by simp [hrole], hne⟩]
  · intro p id h
    unfold listMenuItemsByCategoryHandler
    simp only [h]
  · intro p id c h1 h2
    unfold listMenuItemsByCategoryHandler
    simp only [h1, h2]
  · intro p id c r h1 h2 hrole hne
    unfold listMenuItemsByCategoryHandler
    simp only [h1, h2]
    rw [if_pos ⟨by simp [hrole], hne⟩]
  · intro p id b h
    unfold updateMenuItemHandler
    simp only [h]
  · intro p id b m h1 h2
    unfold updateMenuItemHandler
    simp only [h1, h2]
  · intro p id b m r h1 h2 hrole hne
    unfold updateMenuItemHandler
    simp only [h1, h2]
    rw [if_pos ⟨by simp [hrole], hne⟩]
  · intro p id h
    unfold deleteMenuItemHandler
    simp only [h]
  · intro p id m h1 h2
    unfold deleteMenuItemHandler
    simp only [h1, h2]
  · intro p id m r h1 h2 hrole hne
    unfold deleteMenuItemHandler
    simp only [h1, h2]
    rw [if_pos ⟨by simp [hrole], hne⟩]
  · intro p id b h
    unfold updateSocialMediaHandler
    simp only [h]
  · intro p id b l h1 h2
    unfold updateSocialMediaHandler
    simp only [h1, h2]
  · intro p id b l r h1 h2 hrole hne
    unfold updateSocialMediaHandler
    simp only [h1, h2]
    rw [if_pos ⟨by simp [hrole], hne⟩]
  · intro p id h
    unfold deleteSocialMediaHandler
    simp only [h]
  · intro p id l h1 h2
    unfold deleteSocialMediaHandler
    simp only [h1, h2]
  · intro p id l r h1 h2 hrole hne
    unfold deleteSocialMediaHandler
    simp only [h1, h2]
    rw [if_pos ⟨by simp [hrole], hne⟩]
  · intro p id h
    unfold deleteQRCodeHandler
    simp only [h]
  · intro p id q h1 h2
    unfold deleteQRCodeHandler
    simp only [h1, h2]
  · intro p id q r h1 h2 hrole hne
    unfold deleteQRCodeHandler
    simp only [h1, h2]
    rw [if_pos ⟨by simp [hrole], hne⟩]

/-- Witness for C3: in `fullStore` category 99 is missing (404 precedes
everything, even for the non-owner Carol); in `orphanStore` category 1
exists but its restaurant is gone (404); in `fullStore` both exist and
non-owner Carol gets 403. -/
theorem nested_resource_check_order_witness :
    updateCategoryHandler fullStore ⟨9, "restaurant_admin"⟩ 99 {} =
      .error (.notFound "Category not found") ∧
    updateCategoryHandler orphanStore ⟨9, "restaurant_admin"⟩ 1 {} =
      .error (.notFound "Restaurant not found") ∧
    updateCategoryHandler fullStore ⟨9, "restaurant_admin"⟩ 1 {} =
      .error (.forbidden forbiddenRestaurantMsg) ∧
    deleteQRCodeHandler fullStore ⟨9, "restaurant_admin"⟩ 1 =
      .error (.forbidden forbiddenRestaurantMsg) := by
  refine ⟨?_, ?_, ?_, ?_⟩
  · exact (nested_resource_check_order fullStore).1 ⟨9, "restaurant_admin"⟩ 99 {}
      (by decide)
  · exact (nested_resource_check_order orphanStore).2.1 ⟨9, "restaurant_admin"⟩ 1 {}
      cFal (by decide) (by decide)
  · exact (nested_resource_check_order fullStore).2.2.1 ⟨9, "restaurant_admin"⟩ 1 {}
      cFal rFalafel (by decide) (by decide) rfl (by decide)
  · exact (nested_resource_check_order fullStore).2.2.2.2.2.2.2.2.2.2.2.2.2.2.2.2.2.2.2.2.2.2.2
      ⟨9, "restaurant_admin"⟩ 1 qFal rFalafel (by decide) (by decide) rfl (by decide)

/-- A restaurant_admin principal whose id differs from the adminId of
restaurant R is denied (403 or 404, never the data, and mutations write
nothing) on every restaurant-scoped operation on R and on every
operation addressing a child entity of R — EXCEPT
`PUT /api/restaurants/:id`, whose mounted ownership middleware is dead
(see `update_restaurant_ownership_bypass`); that route is therefore
absent from this theorem. -/
theorem restaurantAdmin_cross_tenant_denied
    (s : Store) (p : Principal) (rid : Nat) (R : Restaurant)
    (hrole : p.role = "restaurant_admin")
    (hR : s.getRestaurant rid = some R) (hne : R.adminId ≠ p.id) :
    denies (getRestaurantHandler s p rid) ∧
    denies (deleteRestaurantHandler s p rid) ∧
    denies (listCategoriesHandler s p rid) ∧
    (∀ b, denies (createCategoryHandler s p rid b)) ∧
    denies (listMenuItemsHandler s p rid) ∧
    (∀ b, denies (createMenuItemHandler s p rid b)) ∧
    denies (listSocialMediaHandler s p rid) ∧
    (∀ b, denies (createSocialMediaHandler s p rid b)) ∧
    denies (listQRCodesHandler s p rid) ∧
    (∀ b, denies (createQRCodeHandler s p rid b)) ∧
    denies (listRestaurantActivityHandler s p rid) ∧
    (∀ id c b, s.getCategory id = some c → c.restaurantId = rid →
      denies (updateCategoryHandler s p id b)) ∧
    (∀ id c, s.getCategory id = some c → c.restaurantId = rid →
      denies (deleteCategoryHandler s p id)) ∧
    (∀ id c, s.getCategory id = some c → c.restaurantId = rid →
      denies (listMenuItemsByCategoryHandler s p id)) ∧
    (∀ id m b, s.getMenuItem id = some m → m.restaurantId = rid →
      denies (updateMenuItemHandler s p id b)) ∧
    (∀ id m, s.getMenuItem id = some m → m.restaurantId = rid →
      denies (deleteMenuItemHandler s p id)) ∧
    (∀ id l b, s.getSocialMediaLink id = some l → l.restaurantId = rid →
      denies (updateSocialMediaHandler s p id b)) ∧
    (∀ id l, s.getSocialMediaLink id = some l → l.restaurantId = rid →
      denies (deleteSocialMediaHandler s p id)) ∧
    (∀ id q, s.getQRCode id = some q → q.restaurantId = rid →
      denies (deleteQRCodeHandler s p id)) := by
  have hns : p.role ≠ "super_admin" := by simp [hrole]
  have hmw : validateOwnership s p (some rid) =
      some (.forbidden forbiddenRestaurantMsg) := by
    unfold validateOwnership
    dsimp only
    rw [if_neg hns]
    simp only [hR]
    rw [if_pos hne]
  refine ⟨?_, ?_, ?_, ?_, ?_, ?_, ?_, ?_, ?_, ?_, ?_, ?_, ?_, ?_, ?_, ?_, ?_,
    ?_, ?_⟩
  · unfold getRestaurantHandler
    simp only [hR]
    rw [if_pos ⟨hns, hne⟩]
    exact ⟨_, rfl, rfl⟩
  · unfold deleteRestaurantHandler
    rw [if_pos hns]
    exact ⟨_, rfl, rfl⟩
  · unfold listCategoriesHandler
    simp only [hmw]
    exact ⟨_, rfl, rfl⟩
  · intro b
    unfold createCategoryHandler
    simp only [hmw]
    exact ⟨_, rfl, rfl⟩
  · unfold listMenuItemsHandler
    simp only [hmw]
    exact ⟨_, rfl, rfl⟩
  · intro b
    unfold createMenuItemHandler
    simp only [hmw]
    exact ⟨_, rfl, rfl⟩
  · unfold listSocialMediaHandler
    simp only [hmw]
    exact ⟨_, rfl, rfl⟩
  · intro b
    unfold createSocialMediaHandler
    simp only [hmw]
    exact ⟨_, rfl, rfl⟩
  · unfold listQRCodesHandler
    simp only [hmw]
    exact ⟨_, rfl, rfl⟩
  · intro b
    unfold createQRCodeHandler
    simp only [hmw]
    exact ⟨_, rfl, rfl⟩
  · unfold listRestaurantActivityHandler
    simp only [hmw]
    exact ⟨_, rfl, rfl⟩
  · intro id c b hc hcr
    unfold updateCategoryHandler
    simp only [hc, hcr, hR]
    rw [if_pos ⟨hns, hne⟩]
    exact ⟨_, rfl, rfl⟩
  · intro id c hc hcr
    unfold deleteCategoryHandler
    simp only [hc, hcr, hR]
    rw [if_pos ⟨hns, hne⟩]
    exact ⟨_, rfl, rfl⟩
  · intro id c hc hcr
    unfold listMenuItemsByCategoryHandler
    simp only [hc, hcr, hR]
    rw [if_pos ⟨hns, hne⟩]
    exact ⟨_, rfl, rfl⟩
  · intro id m b hm hmr
    unfold updateMenuItemHandler
    simp only [hm, hmr, hR]
    rw [if_pos ⟨hns, hne⟩]
    exact ⟨_, rfl, rfl⟩
  · intro id m hm hmr
    unfold deleteMenuItemHandler
    simp only [hm, hmr, hR]
    rw [if_pos ⟨hns, hne⟩]
    exact ⟨_, rfl, rfl⟩
  · intro id l b hl hlr
    unfold updateSocialMediaHandler
    simp only [hl, hlr, hR]
    rw [if_pos ⟨hns, hne⟩]
    exact ⟨_, rfl, rfl⟩
  · intro id l hl hlr
    unfold deleteSocialMediaHandler
    simp only [hl, hlr, hR]
    rw [if_pos ⟨hns, hne⟩]
    exact ⟨_, rfl, rfl⟩
  · intro id q hq hqr
    unfold deleteQRCodeHandler
    simp only [hq, hqr, hR]
    rw [if_pos ⟨hns, hne⟩]
    exact ⟨_, rfl, rfl⟩

/-- Concrete instance of `restaurantAdmin_cross_tenant_denied`: in
`fullStore` restaurant 1 is Bob's (adminId 7); restaurant_admin Carol
(id 9) is denied on a sample of the scoped operations, including ones
addressing restaurant 1's children. -/
theorem restaurantAdmin_cross_tenant_denied_witness :
    denies (getRestaurantHandler fullStore ⟨9, "restaurant_admin"⟩ 1) ∧
    denies (listCategoriesHandler fullStore ⟨9, "restaurant_admin"⟩ 1) ∧
    denies (createMenuItemHandler fullStore ⟨9, "restaurant_admin"⟩ 1
      { name := some "Sneaky", price := some 5, categoryId := some 1 }) ∧
    denies (updateMenuItemHandler fullStore ⟨9, "restaurant_admin"⟩ 1 {}) ∧
    denies (deleteSocialMediaHandler fullStore ⟨9, "restaurant_admin"⟩ 1) := by
  obtain ⟨hGet, hDelR, hListCat, hCreateCat, hListMI, hCreateMI, hListSoc,
      hCreateSoc, hListQR, hCreateQR, hActivity, hUpdCat, hDelCat, hListMIC,
      hUpdMI, hDelMI, hUpdSoc, hDelSoc, hDelQR⟩ :=
    restaurantAdmin_cross_tenant_denied fullStore ⟨9, "restaurant_admin"⟩
      1 rFalafel rfl (by decide) (by decide)
  exact ⟨hGet, hListCat,
    hCreateMI { name := some "Sneaky", price := some 5, categoryId := some 1 },
    hUpdMI 1 mFal {} (by decide) (by decide),
    hDelSoc 1 lFal (by decide) (by decide)⟩

/-- C1 — the exception that refutes the blanket denial: on
`PUT /api/restaurants/:id` the mounted `validateOwnership` middleware
reads `req.params.restaurantId`, which is undefined on that route (the
param is `:id`), so its `!restaurantId` guard passes the request through
and the handler has no inline check.  Concretely: restaurant 1 belongs
to Bob (adminId 7), the middleware passes `none` and yields no error,
and restaurant_admin Carol (id 9) renames Bob's restaurant — the call
succeeds, returns the mutated entity, and persists the change. -/
theorem update_restaurant_ownership_bypass :
    fullStore.getRestaurant 1 = some rFalafel ∧
    rFalafel.adminId = 7 ∧
    validateOwnership fullStore ⟨9, "restaurant_admin"⟩ none = none ∧
    ((updateRestaurantHandler fullStore ⟨9, "restaurant_admin"⟩ 1
        { name := some "Hacked" }).toOption.map
      (fun rs => (rs.1.name, rs.1.adminId, rs.2.getRestaurant 1))) =
      some ("Hacked", 7, some { rFalafel with name := "Hacked" }) := by
  decide

/-- C4 — the public menu endpoint: 404 when the restaurant is missing;
404 when its status is `setup` or `inactive`; for an `active` restaurant
it returns the restaurant's categories sorted by `displayOrder`
ascending, and (in any store satisfying the item-category invariant the
write paths maintain) each category carries exactly the menu items whose
`categoryId` equals that category's id. -/
theorem public_menu_spec (s : Store) (rid : Nat) :
    (s.getRestaurant rid = none →
      publicMenuHandler s rid = .error (.notFound "Restaurant not found")) ∧
    (∀ r, s.getRestaurant rid = some r →
      (r.status = "setup" ∨ r.status = "inactive") →
      publicMenuHandler s rid =
        .error (.notFound "Restaurant menu not available")) ∧
    (∀ r, s.getRestaurant rid = some r → r.status = "active" →
      ∃ m, publicMenuHandler s rid = .ok m ∧
        (m.categories.map
          (fun pc => pc.category.displayOrder.getD 0)).Sorted (· ≤ ·) ∧
        (m.categories.map (fun pc => pc.category)).Perm
          (s.categories.filter (fun c => c.restaurantId == rid)) ∧
        (∀ pc ∈ m.categories, pc.category.restaurantId = rid) ∧
        (itemCategoryConsistent s →
          ∀ pc ∈ m.categories,
            pc.items =
              s.menuItems.filter (fun i => i.categoryId == pc.category.id))) := by
  refine ⟨?_, ?_, ?_⟩
  · intro h
    unfold publicMenuHandler
    simp only [h]
  · intro r hr hst
    unfold publicMenuHandler
    simp only [hr]
    rcases hst with h | h <;> rw [if_pos (by simp [h])]
  · intro r hr hst
    have hperm : (s.getCategoriesByRestaurantId rid).Perm
        (s.categories.filter (fun c => c.restaurantId == rid)) := by
      unfold Store.getCategoriesByRestaurantId
      exact List.perm_insertionSort _ _
    have hsorted : (s.getCategoriesByRestaurantId rid).Pairwise
        (fun a b => a.displayOrder.getD 0 ≤ b.displayOrder.getD 0) := by
      unfold Store.getCategoriesByRestaurantId
      haveI : IsTotal Category
          (fun a b => a.displayOrder.getD 0 ≤ b.displayOrder.getD 0) :=
        ⟨fun a b => Int.le_total _ _⟩
      haveI : IsTrans Category
          (fun a b => a.displayOrder.getD 0 ≤ b.displayOrder.getD 0) :=
        ⟨fun a b c hab hbc => le_trans hab hbc⟩
      exact List.sorted_insertionSort _ _
    unfold publicMenuHandler
    simp only [hr]
    rw [if_neg (by simp [hst])]
    refine ⟨_, rfl, ?_, ?_, ?_, ?_⟩
    · rw [List.map_map]
      exact List.Pairwise.map _ (fun a b h => h) hsorted
    · rw [List.map_map]
      have hmapid : (s.getCategoriesByRestaurantId rid).map
          ((fun pc : PublicCategory => pc.category) ∘ (fun category =>
            { category
              items := (s.getMenuItemsByRestaurantId rid).filter
                (fun i => i.categoryId == category.id) })) =
          s.getCategoriesByRestaurantId rid := List.map_id _
      rw [hmapid]
      exact hperm
    · intro pc hpc
      obtain ⟨c, hc, rfl⟩ := List.mem_map.mp hpc
      have hcf : c ∈ s.categories.filter (fun x => x.restaurantId == rid) :=
        hperm.subset hc
      simpa using List.of_mem_filter hcf
    · intro hcons pc hpc
      obtain ⟨c, hc, rfl⟩ := List.mem_map.mp hpc
      have hcf : c ∈ s.categories.filter (fun x => x.restaurantId == rid) :=
        hperm.subset hc
      have hcmem : c ∈ s.categories := List.mem_of_mem_filter hcf
      have hcrid : c.restaurantId = rid := by
        simpa using List.of_mem_filter hcf
      show (s.getMenuItemsByRestaurantId rid).filter
          (fun i => i.categoryId == c.id) =
        s.menuItems.filter (fun i => i.categoryId == c.id)
      unfold Store.getMenuItemsByRestaurantId
      rw [List.filter_filter]
      refine List.filter_congr ?_
      intro i hi
      cases hq : (i.categoryId == c.id) with
      | false => simp [hq]
      | true =>
        have hceq : i.categoryId = c.id := by simpa using hq
        have hir : i.restaurantId = c.restaurantId := hcons i hi c hcmem hceq
        simp [hq, hir, hcrid]

/-- Fixture: an active restaurant (id 5) for the public menu. -/
def rPub : Restaurant :=
  { id := 5, name := "Public Bistro", description := some "Open menu"
    logo := some "https://img.example/logo.png", phone := some "03-000-0000"
    email := some "owner@bistro.example", address := some "Main St 1"
    adminId := 7, status := "active", primaryColor := some "#e65100"
    secondaryColor := some "#f57c00", rtl := some true }

/-- Fixture: a restaurant still in `setup` (id 6). -/
def rSetup : Restaurant :=
  { id := 6, name := "Hidden Bistro", description := none, logo := none
    phone := none, email := none, address := none, adminId := 9
    status := "setup", primaryColor := none, secondaryColor := none
    rtl := some true }

/-- Fixture: category 20 of restaurant 5, displayOrder 2. -/
def cTwenty : Category :=
  { id := 20, name := "Desserts", description := none, icon := none
    displayOrder := some 2, restaurantId := 5 }

/-- Fixture: category 21 of restaurant 5, displayOrder 1. -/
def cTwentyOne : Category :=
  { id := 21, name := "Mains", description := none, icon := none
    displayOrder := some 1, restaurantId := 5 }

/-- Fixture: three menu items of restaurant 5, all in category 21. -/
def iThirtyOne : MenuItem :=
  { id := 31, name := "Dish A", description := none, price := 40
    discountPrice := none, image := none, featured := none
    categoryId := 21, restaurantId := 5 }

/-- Fixture: second item of category 21. -/
def iThirtyTwo : MenuItem :=
  { id := 32, name := "Dish B", description := none, price := 45
    discountPrice := none, image := none, featured := none
    categoryId := 21, restaurantId := 5 }

/-- Fixture: third item of category 21. -/
def iThirtyThree : MenuItem :=
  { id := 33, name := "Dish C", description := none, price := 50
    discountPrice := none, image := none, featured := none
    categoryId := 21, restaurantId := 5 }

/-- Fixture: public-menu store — restaurant 5 active with two categories
(whose displayOrder is opposite to insertion order) and three items in
category 21; restaurant 6 in `setup`. -/
def pubStore : Store :=
  { baseStore with
      restaurants := [rPub, rSetup], categories := [cTwenty, cTwentyOne],
      menuItems := [iThirtyOne, iThirtyTwo, iThirtyThree],
      socialMediaLinks := [lFal] }

/-- Witness for C4 at `pubStore`: missing restaurant (id 7) gives 404,
the `setup` restaurant 6 gives 404, and the active restaurant 5 yields a
menu whose categories are displayOrder-sorted with each category
carrying exactly its own items. -/
theorem public_menu_spec_witness :
    publicMenuHandler pubStore 7 = .error (.notFound "Restaurant not found") ∧
    publicMenuHandler pubStore 6 =
      .error (.notFound "Restaurant menu not available") ∧
    ∃ m, publicMenuHandler pubStore 5 = .ok m ∧
      (m.categories.map
        (fun pc => pc.category.displayOrder.getD 0)).Sorted (· ≤ ·) ∧
      (m.categories.map (fun pc => pc.category)).Perm
        (pubStore.categories.filter (fun c => c.restaurantId == 5)) ∧
      (∀ pc ∈ m.categories, pc.category.restaurantId = 5) ∧
      (∀ pc ∈ m.categories,
        pc.items =
          pubStore.menuItems.filter (fun i => i.categoryId == pc.category.id)) := by
  refine ⟨(public_menu_spec pubStore 7).1 (by decide),
    (public_menu_spec pubStore 6).2.1 rSetup (by decide) (Or.inl rfl), ?_⟩
  obtain ⟨m, h1, h2, h3, h4, h5⟩ :=
    (public_menu_spec pubStore 5).2.2 rPub (by decide) rfl
  refine ⟨m, h1, h2, h3, h4, h5 ?_⟩
  unfold itemCategoryConsistent
  decide

/-- C5 — the public-menu response is built by a handler that takes no
principal (the route mounts no auth middleware), and its `restaurant`
object carries exactly the keys {id, name, description, logo,
primaryColor, secondaryColor, rtl, phone, address}; in particular no
`adminId`, `email` or `password` key ever appears in it. -/
theorem public_menu_fields (s : Store) (rid : Nat) (r : Restaurant)
    (hr : s.getRestaurant rid = some r) (hst : r.status = "active") :
    ∃ m, publicMenuHandler s rid = .ok m ∧
      m.restaurantFields = publicRestaurantObj r ∧
      m.restaurantFields.map Prod.fst =
        ["id", "name", "description", "logo", "primaryColor",
         "secondaryColor", "rtl", "phone", "address"] ∧
      "adminId" ∉ m.restaurantFields.map Prod.fst ∧
      "email" ∉ m.restaurantFields.map Prod.fst ∧
      "password" ∉ m.restaurantFields.map Prod.fst := by
  unfold publicMenuHandler
  simp only [hr]
  rw [if_neg (by simp [hst])]
  refine ⟨_, rfl, rfl, rfl, ?_, ?_, ?_⟩ <;> simp [publicRestaurantObj]

/-- Witness for C5 at `pubStore`'s active restaurant 5. -/
theorem public_menu_fields_witness :
    ∃ m, publicMenuHandler pubStore 5 = .ok m ∧
      m.restaurantFields = publicRestaurantObj rPub ∧
      m.restaurantFields.map Prod.fst =
        ["id", "name", "description", "logo", "primaryColor",
         "secondaryColor", "rtl", "phone", "address"] ∧
      "adminId" ∉ m.restaurantFields.map Prod.fst ∧
      "email" ∉ m.restaurantFields.map Prod.fst ∧
      "password" ∉ m.restaurantFields.map Prod.fst :=
  public_menu_fields pubStore 5 rPub (by decide) rfl

/-- Fixture: category 3 of restaurant 1 (later deleted). -/
def cStale : Category :=
  { id := 3, name := "Starters", description := none, icon := none
    displayOrder := some 0, restaurantId := 1 }

/-- Fixture: menu item 1 of restaurant 1 referencing category 3. -/
def mStale : MenuItem :=
  { id := 1, name := "Soup", description := none, price := 20
    discountPrice := none, image := none, featured := none
    categoryId := 3, restaurantId := 1 }

/-- Fixture: restaurant 1 with category 3 and an item in it. -/
def c6Pre : Store :=
  { baseStore with
      restaurants := [rFalafel], categories := [cStale], menuItems := [mStale] }

/-- Fixture: restaurant 1 with item 1 still pointing at the deleted
category 3 — the state Bob's `DELETE /api/categories/3` leaves behind
(see `c6_orphan_state_reachable`). -/
def c6Orphan : Store :=
  { baseStore with restaurants := [rFalafel], menuItems := [mStale] }

/-- Deleting category 3 from `c6Pre` through the API removes the category
but leaves item 1 with its dangling `categoryId = 3`, i.e. `c6Orphan`'s
entity state is reachable. -/
theorem c6_orphan_state_reachable :
    ((deleteCategoryHandler c6Pre ⟨7, "restaurant_admin"⟩ 3).toOption.map
      (fun s' => (s'.categories, s'.menuItems, s'.restaurants))) =
      some (c6Orphan.categories, c6Orphan.menuItems, c6Orphan.restaurants) := by
  decide

/-- C6 counterexample — in `c6Orphan` category 3 no longer exists, yet
(1) an update of item 1 that supplies `categoryId = 3` (equal to the
item's current value) succeeds and modifies the item, and (2) a create
that supplies the falsy `categoryId = 0` (referencing no category)
succeeds and persists a new item: both violate the claimed rejection. -/
theorem menu_item_stale_category_accepted_cex :
    c6Orphan.getCategory 3 = none ∧
    c6Orphan.categories = [] ∧
    ((updateMenuItemHandler c6Orphan ⟨7, "restaurant_admin"⟩ 1
        { name := some "Renamed Soup", categoryId := some 3 }).toOption.map
      (fun rs => (rs.1.name, rs.1.categoryId))) = some ("Renamed Soup", 3) ∧
    ((createMenuItemHandler c6Orphan ⟨7, "restaurant_admin"⟩ 1
        { name := some "Zero Cat", price := some 5,
          categoryId := some 0 }).toOption.map
      (fun rs => (rs.1.categoryId, rs.2.menuItems.length))) = some (0, 2) := by
  decide

/-- C6 amended — create: a supplied truthy (nonzero) `categoryId` that
names no existing category of the same restaurant is rejected with 400
and nothing is persisted; update: the same check applies only when the
supplied `categoryId` is truthy AND differs from the item's current one —
supplying the item's current `categoryId` skips the check entirely, so
the update succeeds even when that category no longer exists. -/
theorem menu_item_category_membership_checks (s : Store) (p : Principal) :
    (∀ rid b cid, p.role = "super_admin" → b.categoryId = some cid → cid ≠ 0 →
      (∀ c, s.getCategory cid = some c → c.restaurantId ≠ rid) →
      createMenuItemHandler s p rid b =
        .error (.badRequest "Category does not belong to this restaurant")) ∧
    (∀ id b cid m r, p.role = "super_admin" →
      s.getMenuItem id = some m → s.getRestaurant m.restaurantId = some r →
      b.categoryId = some cid → cid ≠ 0 → cid ≠ m.categoryId →
      (∀ c, s.getCategory cid = some c → c.restaurantId ≠ m.restaurantId) →
      updateMenuItemHandler s p id b =
        .error (.badRequest "Category does not belong to this restaurant")) ∧
    (∀ id b m r, p.role = "super_admin" →
      s.getMenuItem id = some m → s.getRestaurant m.restaurantId = some r →
      b.categoryId = some m.categoryId →
      ∃ m' s', updateMenuItemHandler s p id b = .ok (m', s') ∧
        m'.categoryId = m.categoryId ∧
        m'.restaurantId = m.restaurantId) := by
  refine ⟨?_, ?_, ?_⟩
  · intro rid b cid hrole hb hb0 hc
    have hmw : validateOwnership s p (some rid) = none := by
      unfold validateOwnership
      dsimp only
      rw [if_pos hrole]
    unfold createMenuItemHandler
    cases hcat : s.getCategory cid with
    | none => simp [hmw, hb, truthyNat, hb0, hcat]
    | some c =>
      have hcr := hc c hcat
      simp [hmw, hb, truthyNat, hb0, hcat, hcr]
  · intro id b cid m r hrole hm hr hb hb0 hbne hc
    unfold updateMenuItemHandler
    cases hcat : s.getCategory cid with
    | none => simp [hm, hr, hrole, hb, truthyNat, hb0, hbne, hcat]
    | some c =>
      have hcr := hc c hcat
      simp [hm, hr, hrole, hb, truthyNat, hb0, hbne, hcat, hcr]
  · intro id b m r hrole hm hr hb
    unfold updateMenuItemHandler
    simp only [hm, hr]
    rw [if_neg (by simp [hrole])]
    have hskip : ¬(truthyNat b.categoryId = true ∧
        b.categoryId.getD 0 ≠ m.categoryId) := by
      rintro ⟨-, hne⟩
      exact hne (by simp [hb])
    rw [if_neg hskip]
    simp only [Store.updateMenuItem, hm]
    refine ⟨_, _, rfl, ?_, ?_⟩ <;> simp [Store.mergeMenuItem, hb]

/-- Witness for the amended C6: a create naming the nonexistent category
99 is rejected; an update moving item 1 to the nonexistent category 99
is rejected; an update re-supplying item 1's own (dangling) category 3
succeeds. -/
theorem menu_item_category_membership_checks_witness :
    createMenuItemHandler c6Orphan ⟨1, "super_admin"⟩ 1
      { name := some "Bad", price := some 5, categoryId := some 99 } =
      .error (.badRequest "Category does not belong to this restaurant") ∧
    updateMenuItemHandler c6Orphan ⟨1, "super_admin"⟩ 1
      { categoryId := some 99 } =
      .error (.badRequest "Category does not belong to this restaurant") ∧
    ∃ m' s', updateMenuItemHandler c6Orphan ⟨1, "super_admin"⟩ 1
        { categoryId := some 3 } = .ok (m', s') ∧
      m'.categoryId = 3 ∧ m'.restaurantId = 1 := by
  have h := menu_item_category_membership_checks c6Orphan ⟨1, "super_admin"⟩
  have h99 : c6Orphan.getCategory 99 = none := by decide
  refine ⟨?_, ?_, ?_⟩
  · exact h.1 1 { name := some "Bad", price := some 5, categoryId := some 99 }
      99 rfl rfl (by decide) (fun c hc => by rw [h99] at hc; cases hc)
  · exact h.2.1 1 { categoryId := some 99 } 99 mStale rFalafel rfl (by decide)
      (by decide) rfl (by decide) (by decide)
      (fun c hc => by rw [h99] at hc; cases hc)
  · exact h.2.2 1 { categoryId := some 3 } mStale rFalafel rfl (by decide)
      (by decide) rfl

end RestaurantMaster
